import Mathlib

/-!
Verification development for the buried-pipeline thermal field engine of
Steam_-Hot_water_line_Crossings_Calculations (src/index.tsx).

The numeric code is embedded shallowly:
- UI-layer validation and input ingestion (validatePipeRow, getPipes,
  handleCalculate) work on parsed numbers only, so they are modelled over ℚ
  and stay executable.
- The thermal engine (resistance solver, method-of-images field evaluator,
  soil model) uses logarithms and square roots, so it is modelled over ℝ in
  idealized real arithmetic; the source's Number.isFinite guards are
  comments in the model, since every real value is finite.
- The marching-cubes extractor uses only field arithmetic and comparisons,
  so it is modelled over ℚ and stays executable.
-/

namespace SteamCrossings

/-! ## Unit conversions (src/index.tsx lines 11-17) -/

/-- CONVERSIONS.ftToM. -/
def ftToM (x : ℚ) : ℚ := x * 0.3048

/-- CONVERSIONS.inToM. -/
def inToM (x : ℚ) : ℚ := x * 0.0254

/-- CONVERSIONS.FtoC. -/
def FtoC (f : ℚ) : ℚ := (f - 32) * 5 / 9

/-! ## Pre-solve validation and input ingestion (lines 537-559, 600-643, 2055-2070) -/

/-- validatePipeRow (lines 537-559): the raw inputs are z in feet and
od, insulation, bedding in inches; the row passes unless z_m < totalRadius_m. -/
def validatePipeRow (z od ins bed : ℚ) : Bool :=
  if ftToM z < inToM (od / 2 + ins + bed) then false else true

inductive PipeRole where
  | heat_source
  | affected_pipe
deriving DecidableEq

/-- A pipe row as read by getPipes, before unit conversion: the role, the
parseFloat result of the temperature field (none when blank or unparseable),
and the geometric fields relevant to validation (z in ft; od/ins/bed in in). -/
structure PipeRowRaw where
  role : PipeRole
  rawTemp : Option ℚ
  z : ℚ
  od : ℚ
  ins : ℚ
  bed : ℚ

/-- getPipes, lines 621-625: a heat-source row always receives a temperature;
a blank field parses to NaN and the JS idiom parseFloat(v) || 0 turns it
into 0 degF, which is then converted with FtoC. -/
def resolvedTemp (r : PipeRowRaw) : Option ℚ :=
  if r.role = PipeRole.heat_source then some (FtoC (r.rawTemp.getD 0)) else none

/-- handleCalculate, lines 2055-2070: the only pre-solve gate is
validatePipeRow applied to every row; the calculation proceeds iff all pass. -/
def handleCalculateAccepts (rows : List PipeRowRaw) : Bool :=
  rows.all (fun r => validatePipeRow r.z r.od r.ins r.bed)

/-! ## Soil model and field evaluator data (ℝ) -/

inductive PipeOrientation where
  | parallel
  | perpendicular
deriving DecidableEq

/-- CalculationSoilLayer (lines 63-68). -/
structure CalculationSoilLayer where
  k : ℝ
  thickness : ℝ
  depth_top : ℝ
  depth_bottom : ℝ

/-- A heat-source or affected pipe in SI units (interface Pipe, lines 44-61);
the UI element back-reference and the name are presentation data and omitted. -/
structure Pipe where
  id : ℕ
  role : PipeRole
  orientation : PipeOrientation
  x : ℝ
  y : ℝ
  z : ℝ
  temp : ℝ
  od : ℝ
  thickness : ℝ
  k_pipe : ℝ
  ins_thickness : ℝ
  k_ins : ℝ
  bed_thickness : ℝ
  k_bedding : ℝ

/-- A pipe of SceneData.pipes (lines 145-158). -/
structure ScenePipe where
  id : ℕ
  x : ℝ
  y : ℝ
  z : ℝ
  orientation : PipeOrientation
  r_pipe : ℝ
  r_ins : ℝ
  r_bed : ℝ
  temp : ℝ
  isSource : Bool
  Q : Option ℝ

/-- The portion of SceneData read by calculateTemperatureAtPoint (line 818). -/
structure SceneData where
  T_soil : ℝ
  pipes : List ScenePipe
  layers : List CalculationSoilLayer

/-- Math.hypot on two arguments. -/
noncomputable def hypot (a b : ℝ) : ℝ := Real.sqrt (a ^ 2 + b ^ 2)

/-- getSoilKAtPoint (lines 807-815): the first layer whose
[depth_top, depth_bottom) contains z; below all layers, the last layer's k;
with no layers, 1.5. The x argument of the source is unused and dropped. -/
noncomputable def getSoilKAtPoint (z : ℝ) : List CalculationSoilLayer → ℝ
  | [] => 1.5
  | l :: ls =>
    if l.depth_top ≤ z ∧ z < l.depth_bottom then l.k
    else
      match ls with
      | [] => l.k
      | _ :: _ => getSoilKAtPoint z ls

/-- The JS fallback soilLayers[0]?.k || 1.5 (lines 662, 668, 682): the first
layer's conductivity unless the list is empty or that conductivity is 0. -/
noncomputable def firstLayerKFallback : List CalculationSoilLayer → ℝ
  | [] => 1.5
  | l :: _ => if l.k = 0 then 1.5 else l.k

/-- getEffectiveSoilKForPipe (lines 646-663), taking the fields the source
reads from its (possibly partial) pipe argument: od, insulation and bedding
thickness, and centerline depth. -/
noncomputable def getEffectiveSoilKForPipe (od ins bed z : ℝ)
    (soilLayers : List CalculationSoilLayer) : ℝ :=
  let r_outer := od / 2 + ins + bed
  let hits := soilLayers.filter fun l => z + r_outer > l.depth_top ∧ z - r_outer < l.depth_bottom
  match hits with
  | [] => firstLayerKFallback soilLayers
  | _ :: _ => (hits.map (fun l => l.k)).sum / hits.length

/-- getEffectiveKForPath (lines 665-685): harmonic-mean conductivity along the
straight segment from (x1, z1) to (x2, z2), discretized into 100 sub-segments;
returns the first-layer fallback when the points nearly coincide or the summed
resistance is zero. -/
noncomputable def getEffectiveKForPath (x1 z1 x2 z2 : ℝ)
    (soilLayers : List CalculationSoilLayer) : ℝ :=
  let length := hypot (x2 - x1) (z2 - z1)
  if length < 1e-6 then firstLayerKFallback soilLayers
  else
    let steps : ℕ := 100
    let totalResistance :=
      (Finset.range steps).sum fun i =>
        let t := ((i : ℝ) + 0.5) / steps
        let z := z1 + t * (z2 - z1)
        let k := getSoilKAtPoint z soilLayers
        if k > 0 then (length / steps) / k else 0
    if totalResistance = 0 then firstLayerKFallback soilLayers
    else length / totalResistance

/-! ## Resistance solver (calculateTemperatures, lines 692-712) -/

/-- R_pipe (line 700). -/
noncomputable def R_pipe (p : Pipe) : ℝ :=
  let r_pipe_outer := p.od / 2
  let r_pipe_inner := r_pipe_outer - p.thickness
  if p.k_pipe > 0 ∧ r_pipe_inner > 0 then
    Real.log (r_pipe_outer / r_pipe_inner) / (2 * Real.pi * p.k_pipe)
  else 0

/-- R_ins (line 702). -/
noncomputable def R_ins (p : Pipe) : ℝ :=
  let r_pipe_outer := p.od / 2
  let r_ins_outer := r_pipe_outer + p.ins_thickness
  if p.k_ins > 0 then Real.log (r_ins_outer / r_pipe_outer) / (2 * Real.pi * p.k_ins) else 0

/-- R_bed (line 703). -/
noncomputable def R_bed (p : Pipe) : ℝ :=
  let r_ins_outer := p.od / 2 + p.ins_thickness
  let r_bed_outer := r_ins_outer + p.bed_thickness
  if p.k_bedding > 0 then Real.log (r_bed_outer / r_ins_outer) / (2 * Real.pi * p.k_bedding) else 0

/-- R_soil (lines 705-706). -/
noncomputable def R_soil (p : Pipe) (soilLayers : List CalculationSoilLayer) : ℝ :=
  let r_bed_outer := p.od / 2 + p.ins_thickness + p.bed_thickness
  let k_eff_soil := getEffectiveSoilKForPipe p.od p.ins_thickness p.bed_thickness p.z soilLayers
  if k_eff_soil > 0 then Real.log ((2 * p.z) / r_bed_outer) / (2 * Real.pi * k_eff_soil) else 0

/-- R_total (line 708). -/
noncomputable def R_total (p : Pipe) (soilLayers : List CalculationSoilLayer) : ℝ :=
  R_pipe p + R_ins p + R_bed p + R_soil p soilLayers

/-- Q (line 709): (T_pipe - T_soil) / R_total when R_total > 0, else 0. -/
noncomputable def sourceQ (p : Pipe) (soilLayers : List CalculationSoilLayer) (T_soil : ℝ) : ℝ :=
  if R_total p soilLayers > 0 then (p.temp - T_soil) / R_total p soilLayers else 0

/-- The cylindrical-layer resistance exactly as the specification words it:
ln(r_outer / r_inner) / (2 pi k), and 0 whenever the conductivity is zero or
the inner radius is non-positive. -/
noncomputable def cylindricalLayerR (r_outer r_inner k : ℝ) : ℝ :=
  if k = 0 ∨ r_inner ≤ 0 then 0 else Real.log (r_outer / r_inner) / (2 * Real.pi * k)

/-! ## Pipe-to-pipe interaction (calculateTemperatures, lines 717-773) -/

/-- The horizontal coordinate the interaction code reads for a pipe
(lines 735-736): x for a parallel pipe, y for a perpendicular one. -/
noncomputable def horizOf (p : Pipe) : ℝ :=
  if p.orientation = PipeOrientation.parallel then p.x else p.y

/-- d_real before clamping (lines 742, 755): full 2D centerline distance for
same-orientation pairs, pure vertical separation for mixed orientations. -/
noncomputable def interDRealRaw (src aff : Pipe) : ℝ :=
  if src.orientation = aff.orientation then
    hypot (horizOf src - horizOf aff) (src.z - aff.z)
  else |src.z - aff.z|

/-- d_image (lines 743, 756). -/
noncomputable def interDImage (src aff : Pipe) : ℝ :=
  if src.orientation = aff.orientation then
    hypot (horizOf src - horizOf aff) (src.z + aff.z)
  else src.z + aff.z

/-- k_eff_path (lines 748, 759). -/
noncomputable def interKEff (src aff : Pipe) (soilLayers : List CalculationSoilLayer) : ℝ :=
  if src.orientation = aff.orientation then
    getEffectiveKForPath (horizOf src) src.z (horizOf aff) aff.z soilLayers
  else getSoilKAtPoint aff.z soilLayers

/-- A solved heat source: the pipe together with its heat flux Q (line 714). -/
structure SourceWithQ where
  pipe : Pipe
  Q : ℝ

/-- The per-source temperature rise at an affected pipe (lines 762-765):
d_real is clamped to the source's bedding-inclusive outer radius, then the
rise is (Q / (2 pi k)) ln(d_image / d_real) under the positivity guard. -/
noncomputable def interactionRise (s : SourceWithQ) (aff : Pipe)
    (soilLayers : List CalculationSoilLayer) : ℝ :=
  let r_source_outer := s.pipe.od / 2 + s.pipe.ins_thickness + s.pipe.bed_thickness
  let d_real := max (interDRealRaw s.pipe aff) r_source_outer
  let d_image := interDImage s.pipe aff
  let k_eff_path := interKEff s.pipe aff soilLayers
  if k_eff_path > 0 ∧ d_image > d_real then
    (s.Q / (2 * Real.pi * k_eff_path)) * Real.log (d_image / d_real)
  else 0

/-- Total rise at an affected pipe (lines 717-769), with the self-exclusion
guard source.id === affectedPipe.id of line 722. -/
noncomputable def affectedTotalRise (sources : List SourceWithQ) (aff : Pipe)
    (soilLayers : List CalculationSoilLayer) : ℝ :=
  (sources.map fun s =>
    if s.pipe.id = aff.id then 0 else interactionRise s aff soilLayers).sum

/-- finalTemp (line 771). -/
noncomputable def affectedFinalTemp (sources : List SourceWithQ) (aff : Pipe)
    (soilLayers : List CalculationSoilLayer) (T_soil : ℝ) : ℝ :=
  T_soil + affectedTotalRise sources aff soilLayers

/-- The per-source temperature-rise contribution exactly as the specification
words it: (Q / (2 pi k_eff_path)) ln(d_image / d_real) when k_eff_path > 0 and
d_image > d_real, else 0; d_real is already clamped by the caller. -/
noncomputable def claimContribution (Q k_eff_path d_image d_real : ℝ) : ℝ :=
  if k_eff_path > 0 ∧ d_image > d_real then
    (Q / (2 * Real.pi * k_eff_path)) * Real.log (d_image / d_real)
  else 0

/-! ## Point evaluator (calculateTemperatureAtPoint, lines 817-872) -/

/-- Distance from the query point to a pipe's centerline (lines 822-827,
850-858): the cross-section uses (x, z) for a parallel pipe and (y, z) for a
perpendicular one (the query's horizontal coordinate being 0 there). -/
noncomputable def distToCenterAt (p : ScenePipe) (x z : ℝ) : ℝ :=
  if p.orientation = PipeOrientation.parallel then hypot (x - p.x) (z - p.z)
  else hypot (0 - p.y) (z - p.z)

/-- d_image of the point evaluator (lines 853, 858). -/
noncomputable def dImageAt (p : ScenePipe) (x z : ℝ) : ℝ :=
  if p.orientation = PipeOrientation.parallel then hypot (x - p.x) (z + p.z)
  else hypot (0 - p.y) (z + p.z)

/-- k_eff_path of the point evaluator (lines 854, 859). -/
noncomputable def kEffPathAt (p : ScenePipe) (x z : ℝ)
    (layers : List CalculationSoilLayer) : ℝ :=
  if p.orientation = PipeOrientation.parallel then
    getEffectiveKForPath p.x p.z x z layers
  else getEffectiveKForPath p.y p.z 0 z layers

/-- The analytic surface temperature of a source pipe (lines 832-837); q is
the pipe's (present, non-zero) heat flux. The Number.isFinite fallback of
line 836 is vacuous in real arithmetic. -/
noncomputable def surfaceTempAt (p : ScenePipe) (q T_soil : ℝ)
    (layers : List CalculationSoilLayer) : ℝ :=
  let k_eff_soil := getEffectiveSoilKForPipe (p.r_bed * 2) 0 0 p.z layers
  if k_eff_soil ≤ 0 then T_soil
  else T_soil + (q / (2 * Real.pi * k_eff_soil)) * Real.log ((2 * p.z) / p.r_bed)

/-- The early-return pipe loop of the point evaluator (lines 820-839): the
first pipe whose bedding radius contains the point and which either contains
the point within its bare radius (returning its stored temperature) or is a
source with truthy Q (returning its surface temperature) decides the result;
other pipes are skipped. -/
noncomputable def pipeLoopResult (x z T_soil : ℝ)
    (layers : List CalculationSoilLayer) : List ScenePipe → Option ℝ
  | [] => none
  | p :: rest =>
    let distToCenter := distToCenterAt p x z
    if distToCenter ≤ p.r_bed then
      if distToCenter ≤ p.r_pipe then some p.temp
      else
        match p.Q with
        | some q =>
          if p.isSource = true ∧ q ≠ 0 then some (surfaceTempAt p q T_soil layers)
          else pipeLoopResult x z T_soil layers rest
        | none => pipeLoopResult x z T_soil layers rest
    else pipeLoopResult x z T_soil layers rest

/-- The per-source rise of the point evaluator superposition loop
(lines 844-867); the source's Q is present on every pipe the loop visits
(Option.getD 0 reads it). The Number.isFinite guard of line 864 is vacuous in
real arithmetic. -/
noncomputable def pointSourceRise (s : ScenePipe) (x z : ℝ)
    (layers : List CalculationSoilLayer) : ℝ :=
  let d_real := max (distToCenterAt s x z) s.r_bed
  let d_image := dImageAt s x z
  let k_eff_path := kEffPathAt s x z layers
  if k_eff_path > 0 ∧ d_image > d_real ∧ d_real > 0 then
    (s.Q.getD 0 / (2 * Real.pi * k_eff_path)) * Real.log (d_image / d_real)
  else 0

/-- calculateTemperatureAtPoint (lines 817-872): early pipe-loop return, else
soil temperature plus superposition over the sources with a defined Q
(line 842). The final Number.isFinite fallback of line 871 is vacuous in real
arithmetic. -/
noncomputable def calculateTemperatureAtPoint (x z : ℝ) (scene : SceneData) : ℝ :=
  match pipeLoopResult x z scene.T_soil scene.layers scene.pipes with
  | some t => t
  | none =>
    let heatSources := scene.pipes.filter fun p => p.isSource && p.Q.isSome
    scene.T_soil + (heatSources.map fun s => pointSourceRise s x z scene.layers).sum

/-! ## Marching cubes extractor (MarchingCubes, lines 1368-1457), over ℚ -/

/-- The 256-entry edge table of the marching-cubes extractor (src/index.tsx, MarchingCubes.edgeTable). -/
def edgeTable : List Nat := [
  0, 265, 515, 778, 1030, 1295, 1541, 1804, 2060, 2309, 2575, 2822, 3082, 3331, 3593, 3840,
  400, 153, 915, 666, 1430, 1183, 1941, 1692, 2460, 2197, 2975, 2710, 3482, 3219, 3993, 3728,
  560, 825, 51, 314, 1590, 1855, 1077, 1340, 2620, 2869, 2111, 2358, 3642, 3891, 3129, 3376,
  928, 681, 419, 170, 1958, 1711, 1445, 1196, 2988, 2725, 2479, 2214, 4010, 3747, 3497, 3232,
  1120, 1385, 1635, 1898, 102, 367, 613, 876, 3180, 3429, 3695, 3942, 2154, 2403, 2665, 2912,
  1520, 1273, 2035, 1786, 502, 255, 1013, 764, 3580, 3317, 4095, 3830, 2554, 2291, 3065, 2800,
  1616, 1881, 1107, 1370, 598, 863, 85, 348, 3676, 3925, 3167, 3414, 2650, 2899, 2137, 2384,
  1984, 1737, 1475, 1226, 966, 719, 453, 204, 4044, 3781, 3535, 3270, 3018, 2755, 2505, 2240,
  2240, 2505, 2755, 3018, 3270, 3535, 3781, 4044, 204, 453, 719, 966, 1226, 1475, 1737, 1984,
  2384, 2137, 2899, 2650, 3414, 3167, 3925, 3676, 348, 85, 863, 598, 1370, 1107, 1881, 1616,
  2800, 3065, 2291, 2554, 3830, 4095, 3317, 3580, 764, 1013, 255, 502, 1786, 2035, 1273, 1520,
  2912, 2665, 2403, 2154, 3942, 3695, 3429, 3180, 876, 613, 367, 102, 1898, 1635, 1385, 1120,
  3232, 3497, 3747, 4010, 2214, 2479, 2725, 2988, 1196, 1445, 1711, 1958, 170, 419, 681, 928,
  3376, 3129, 3891, 3642, 2358, 2111, 2869, 2620, 1340, 1077, 1855, 1590, 314, 51, 825, 560,
  3728, 3993, 3219, 3482, 2710, 2975, 2197, 2460, 1692, 1941, 1183, 1430, 666, 915, 153, 400,
  3840, 3593, 3331, 3082, 2822, 2575, 2309, 2060, 1804, 1541, 1295, 1030, 778, 515, 265, 0]

/-- The rows of the triangle table (src/index.tsx, MarchingCubes.triTable),
one definition per row; triRowN is row N of the source literal. -/
def triRow0 : List Int := [-1, -1, -1, -1, -1, -1, -1, -1, -1, -1, -1, -1, -1, -1, -1, -1]
def triRow1 : List Int := [-1, -1, -1, -1, -1, -1, -1, -1, -1, -1, -1, -1, -1, -1, -1, -1]
def triRow2 : List Int := [0, 8, 3, -1, -1, -1, -1, -1, -1, -1, -1, -1, -1, -1, -1, -1]
def triRow3 : List Int := [1, 0, 3, -1, 1, 3, 8, -1, -1, -1, -1, -1, -1, -1, -1, -1]
def triRow4 : List Int := [1, 2, 3, -1, -1, -1, -1, -1, -1, -1, -1, -1, -1, -1, -1, -1]
def triRow5 : List Int := [0, 8, 3, -1, 1, 2, 0, -1, -1, -1, -1, -1, -1, -1, -1, -1]
def triRow6 : List Int := [0, 2, 3, -1, 0, 3, 1, -1, -1, -1, -1, -1, -1, -1, -1, -1]
def triRow7 : List Int := [8, 3, 1, -1, 8, 1, 2, -1, -1, -1, -1, -1, -1, -1, -1, -1]
def triRow8 : List Int := [4, 7, 8, -1, -1, -1, -1, -1, -1, -1, -1, -1, -1, -1, -1, -1]
def triRow9 : List Int := [4, 7, 8, -1, 0, 3, 4, -1, 3, 7, 4, -1, -1, -1, -1, -1]
def triRow10 : List Int := [0, 3, 4, -1, 0, 4, 7, -1, 0, 7, 8, -1, -1, -1, -1, -1]
def triRow11 : List Int := [1, 3, 8, -1, 1, 8, 7, -1, 1, 7, 4, -1, 3, 7, 8, -1]
def triRow12 : List Int := [1, 2, 4, -1, 1, 4, 7, -1, 1, 7, 8, -1, -1, -1, -1, -1]
def triRow13 : List Int := [0, 8, 1, -1, 0, 7, 8, -1, 0, 4, 7, -1, 1, 2, 4, -1]
def triRow14 : List Int := [0, 2, 3, -1, 4, 7, 0, -1, 2, 7, 0, -1, -1, -1, -1, -1]
def triRow15 : List Int := [2, 3, 4, -1, 2, 4, 7, -1, 2, 7, 8, -1, 3, 7, 4, -1]
def triRow16 : List Int := [4, 5, 6, -1, -1, -1, -1, -1, -1, -1, -1, -1, -1, -1, -1, -1]
def triRow17 : List Int := [4, 5, 6, -1, 0, 8, 3, -1, 4, 0, 3, -1, 5, 3, 0, -1]
def triRow18 : List Int := [0, 3, 4, -1, 0, 4, 5, -1, 0, 5, 6, -1, 3, 5, 4, -1]
def triRow19 : List Int := [8, 3, 1, -1, 8, 1, 6, -1, 8, 6, 5, -1, 3, 6, 1, -1]
def triRow20 : List Int := [1, 2, 6, -1, 1, 6, 5, -1, 1, 5, 4, -1, -1, -1, -1, -1]
def triRow21 : List Int := [3, 0, 8, -1, 3, 8, 5, -1, 3, 5, 4, -1, 0, 5, 8, -1]
def triRow22 : List Int := [0, 2, 3, -1, 0, 3, 6, -1, 0, 6, 5, -1, 2, 5, 3, -1]
def triRow23 : List Int := [8, 3, 1, -1, 8, 1, 2, -1, 8, 2, 5, -1, 3, 5, 1, -1]
def triRow24 : List Int := [4, 5, 6, -1, 4, 6, 7, -1, -1, -1, -1, -1, -1, -1, -1, -1]
def triRow25 : List Int := [0, 8, 3, -1, 4, 5, 3, -1, 8, 5, 3, -1, 4, 6, 7, -1]
def triRow26 : List Int := [7, 8, 4, -1, 7, 4, 5, -1, 7, 5, 0, -1, 8, 5, 4, -1]
def triRow27 : List Int := [3, 7, 4, -1, 3, 4, 5, -1, 3, 5, 1, -1, 7, 5, 4, -1]
def triRow28 : List Int := [1, 2, 6, -1, 1, 6, 7, -1, 1, 7, 4, -1, 2, 7, 6, -1]
def triRow29 : List Int := [8, 1, 2, -1, 8, 2, 6, -1, 8, 6, 7, -1, 1, 6, 2, -1]
def triRow30 : List Int := [0, 2, 3, -1, 4, 7, 6, -1, 0, 3, 6, -1, 2, 7, 3, -1]
def triRow31 : List Int := [2, 3, 4, -1, 2, 4, 7, -1, -1, -1, -1, -1, -1, -1, -1, -1]
def triRow32 : List Int := [9, 10, 11, -1, -1, -1, -1, -1, -1, -1, -1, -1, -1, -1, -1, -1]
def triRow33 : List Int := [0, 8, 3, -1, 9, 10, 11, -1, 0, 9, 3, -1, 8, 10, 9, -1]
def triRow34 : List Int := [1, 2, 0, -1, 9, 10, 11, -1, 1, 9, 0, -1, 2, 10, 9, -1]
def triRow35 : List Int := [1, 2, 3, -1, 9, 10, 11, -1, -1, -1, -1, -1, -1, -1, -1, -1]
def triRow36 : List Int := [4, 7, 8, -1, 9, 10, 11, -1, 4, 9, 8, -1, 7, 10, 9, -1]
def triRow37 : List Int := [4, 7, 8, -1, 0, 3, 4, -1, 3, 7, 4, -1, 9, 10, 11, -1]
def triRow38 : List Int := [0, 3, 4, -1, 0, 4, 7, -1, 0, 7, 8, -1, 9, 10, 11, -1]
def triRow39 : List Int := [1, 3, 8, -1, 1, 8, 7, -1, 1, 7, 4, -1, 3, 7, 8, -1, 9, 10, 11, -1]
def triRow40 : List Int := [4, 5, 6, -1, 9, 10, 11, -1, 4, 9, 6, -1, 5, 10, 9, -1]
def triRow41 : List Int := [3, 0, 8, -1, 3, 8, 5, -1, 3, 5, 4, -1, 9, 10, 11, -1, 4, 9, 5, -1, 0, 10, 9, -1]
def triRow42 : List Int := [0, 3, 4, -1, 0, 4, 5, -1, 0, 5, 6, -1, 9, 10, 11, -1, 3, 9, 5, -1, 4, 10, 9, -1]
def triRow43 : List Int := [1, 3, 8, -1, 1, 8, 5, -1, 1, 5, 6, -1, 3, 5, 8, -1, 9, 10, 11, -1]
def triRow44 : List Int := [1, 2, 6, -1, 1, 6, 5, -1, 1, 5, 4, -1, 9, 10, 11, -1, 2, 9, 5, -1, 1, 10, 9, -1]
def triRow45 : List Int := [0, 8, 3, -1, 1, 2, 0, -1, -1, -1, -1, -1, 9, 10, 11, -1, 2, 9, 3, -1, 0, 10, 9, -1]
def triRow46 : List Int := [9, 10, 11, -1, 0, 2, 3, -1, 0, 3, 6, -1, 0, 6, 5, -1, 2, 9, 3, -1, 6, 10, 9, -1]
def triRow47 : List Int := [1, 2, 3, -1, 9, 10, 11, -1, 8, 5, 1, -1, 3, 8, 1, -1, 6, 10, 9, -1, 5, 9, 1, -1]
def triRow48 : List Int := [1, 2, 11, -1, 1, 11, 9, -1, -1, -1, -1, -1, -1, -1, -1, -1]
def triRow49 : List Int := [0, 8, 3, -1, 1, 2, 11, -1, 0, 1, 11, -1, 8, 2, 1, -1]
def triRow50 : List Int := [0, 2, 3, -1, 0, 3, 11, -1, 0, 11, 9, -1, 2, 11, 3, -1]
def triRow51 : List Int := [1, 2, 3, -1, 3, 2, 11, -1, -1, -1, -1, -1, -1, -1, -1, -1]
def triRow52 : List Int := [4, 7, 8, -1, 1, 2, 11, -1, 4, 1, 8, -1, 7, 2, 1, -1]
def triRow53 : List Int := [4, 7, 8, -1, 0, 3, 4, -1, 3, 7, 4, -1, 1, 2, 11, -1]
def triRow54 : List Int := [8, 0, 3, -1, 8, 3, 11, -1, 8, 11, 7, -1, 0, 11, 3, -1]
def triRow55 : List Int := [1, 3, 11, -1, 1, 11, 7, -1, 1, 7, 4, -1, 3, 7, 11, -1]
def triRow56 : List Int := [4, 5, 6, -1, 1, 2, 11, -1, 4, 1, 6, -1, 5, 2, 1, -1]
def triRow57 : List Int := [0, 8, 3, -1, 1, 2, 11, -1, 0, 1, 3, -1, 8, 2, 1, -1, 4, 5, 6, -1]
def triRow58 : List Int := [11, 9, 0, -1, 11, 0, 3, -1, 11, 3, 6, -1, 9, 3, 0, -1]
def triRow59 : List Int := [1, 2, 3, -1, 1, 3, 6, -1, 1, 6, 5, -1, 3, 5, 6, -1, 11, 9, 1, -1]
def triRow60 : List Int := [1, 2, 11, -1, 1, 11, 4, -1, 1, 4, 5, -1, 2, 4, 11, -1]
def triRow61 : List Int := [3, 0, 8, -1, 3, 8, 5, -1, 3, 5, 4, -1, 2, 11, 1, -1, 0, 4, 8, -1]
def triRow62 : List Int := [0, 2, 3, -1, 0, 3, 6, -1, 0, 6, 5, -1, 2, 11, 3, -1, 6, 4, 5, -1]
def triRow63 : List Int := [3, 8, 2, -1, 3, 2, 11, -1, 8, 11, 2, -1, -1, -1, -1, -1]
def triRow64 : List Int := [4, 5, 6, -1, 4, 6, 7, -1, 1, 2, 9, -1, 5, 1, 9, -1, 6, 2, 1, -1]
def triRow65 : List Int := [0, 8, 3, -1, 4, 5, 3, -1, 8, 5, 3, -1, 4, 6, 7, -1, 1, 2, 9, -1]
def triRow66 : List Int := [8, 4, 7, -1, 8, 7, 5, -1, 8, 5, 0, -1, 4, 5, 7, -1, 1, 2, 9, -1]
def triRow67 : List Int := [1, 2, 9, -1, 3, 7, 4, -1, 3, 4, 5, -1, 3, 5, 1, -1, 7, 5, 4, -1]
def triRow68 : List Int := [1, 2, 6, -1, 1, 6, 7, -1, 1, 7, 4, -1, 2, 7, 6, -1, 9, 10, 1, -1]
def triRow69 : List Int := [1, 6, 2, -1, 8, 6, 1, -1, 7, 6, 8, -1, -1, -1, -1, -1, 9, 10, 1, -1]
def triRow70 : List Int := [3, 0, 2, -1, 3, 2, 7, -1, 3, 7, 4, -1, 0, 7, 2, -1, 9, 10, 1, -1, 6, 8, 7, -1]
def triRow71 : List Int := [2, 3, 4, -1, 2, 4, 7, -1, 9, 10, 1, -1, 3, 9, 1, -1, 4, 10, 9, -1]
def triRow72 : List Int := [9, 10, 11, -1, 2, 3, 7, -1, 11, 2, 7, -1, 10, 3, 2, -1]
def triRow73 : List Int := [0, 8, 3, -1, 9, 10, 11, -1, 2, 3, 7, -1, 0, 9, 3, -1, 11, 2, 7, -1, 8, 10, 9, -1]
def triRow74 : List Int := [0, 2, 3, -1, 9, 10, 11, -1, 1, 9, 0, -1, 2, 10, 9, -1, 3, 7, 0, -1, 11, 1, 9, -1]
def triRow75 : List Int := [1, 2, 3, -1, 9, 10, 11, -1, 3, 7, 1, -1, 11, 2, 7, -1, 10, 3, 2, -1]
def triRow76 : List Int := [1, 2, 11, -1, 1, 11, 9, -1, 4, 7, 8, -1, 2, 8, 11, -1, 9, 4, 8, -1]
def triRow77 : List Int := [1, 2, 11, -1, 0, 8, 3, -1, 0, 1, 11, -1, 8, 2, 1, -1, 4, 7, 8, -1]
def triRow78 : List Int := [0, 2, 3, -1, 0, 3, 11, -1, 0, 11, 9, -1, 2, 11, 3, -1, 4, 7, 8, -1]
def triRow79 : List Int := [1, 2, 3, -1, 3, 2, 11, -1, 4, 7, 8, -1, -1, -1, -1, -1]
def triRow80 : List Int := [4, 5, 6, -1, 9, 10, 11, -1, 1, 2, 9, -1, 5, 10, 9, -1, 6, 2, 10, -1]
def triRow81 : List Int := [0, 8, 3, -1, 1, 2, 10, -1, 0, 1, 10, -1, 8, 2, 1, -1, 9, 5, 4, -1, 11, 6, 5, -1]
def triRow82 : List Int := [0, 2, 3, -1, 9, 10, 11, -1, 3, 9, 0, -1, 5, 9, 3, -1, 6, 10, 9, -1]
def triRow83 : List Int := [1, 2, 3, -1, 9, 10, 11, -1, 8, 6, 5, -1, 3, 8, 5, -1, 1, 9, 6, -1, 2, 10, 9, -1]
def triRow84 : List Int := [1, 2, 9, -1, 1, 9, 10, -1, 1, 10, 5, -1, 2, 5, 9, -1]
def triRow85 : List Int := [0, 8, 3, -1, 0, 3, 5, -1, 0, 5, 10, -1, 8, 5, 3, -1]
def triRow86 : List Int := [9, 10, 0, -1, 9, 0, 3, -1, 9, 3, 5, -1, 10, 5, 0, -1]
def triRow87 : List Int := [3, 8, 5, -1, 10, 3, 5, -1, -1, -1, -1, -1, -1, -1, -1, -1]
def triRow88 : List Int := [1, 2, 9, -1, 1, 9, 10, -1, 1, 10, 6, -1, 2, 6, 9, -1]
def triRow89 : List Int := [0, 8, 3, -1, 2, 9, 1, -1, 0, 6, 9, -1, 2, 0, 9, -1]
def triRow90 : List Int := [0, 2, 3, -1, 0, 3, 6, -1, 0, 6, 10, -1, 2, 6, 3, -1]
def triRow91 : List Int := [2, 3, 6, -1, 10, 2, 6, -1, -1, -1, -1, -1, -1, -1, -1, -1]
def triRow92 : List Int := [1, 2, 9, -1, 1, 9, 10, -1, 4, 7, 8, -1, 2, 8, 9, -1, 10, 4, 8, -1]
def triRow93 : List Int := [0, 8, 3, -1, 1, 2, 9, -1, 0, 1, 9, -1, 8, 2, 1, -1, 4, 7, 8, -1, 10, 4, 9, -1]
def triRow94 : List Int := [0, 2, 3, -1, 9, 10, 0, -1, 2, 10, 0, -1, 4, 7, 8, -1]
def triRow95 : List Int := [1, 2, 3, -1, 4, 7, 8, -1, 9, 10, 1, -1, -1, -1, -1, -1]
def triRow96 : List Int := [1, 2, 9, -1, 1, 9, 10, -1, 4, 5, 6, -1, 2, 6, 9, -1, 10, 4, 6, -1]
def triRow97 : List Int := [1, 2, 10, -1, 0, 8, 3, -1, 0, 1, 10, -1, 8, 2, 1, -1, 4, 5, 6, -1]
def triRow98 : List Int := [0, 2, 3, -1, 0, 3, 6, -1, 0, 6, 10, -1, 2, 6, 3, -1, 4, 5, 6, -1]
def triRow99 : List Int := [1, 2, 3, -1, 4, 5, 6, -1, 8, 10, 2, -1, 3, 8, 2, -1, 5, 10, 8, -1]
def triRow100 : List Int := [2, 3, 7, -1, 2, 7, 10, -1, -1, -1, -1, -1, -1, -1, -1, -1]
def triRow101 : List Int := [3, 0, 8, -1, 3, 8, 10, -1, 3, 10, 7, -1, 0, 10, 8, -1]
def triRow102 : List Int := [0, 2, 3, -1, 0, 3, 7, -1, 0, 7, 10, -1, 2, 7, 3, -1]
def triRow103 : List Int := [2, 3, 7, -1, 10, 2, 7, -1, -1, -1, -1, -1, -1, -1, -1, -1]
def triRow104 : List Int := [1, 2, 6, -1, 1, 6, 7, -1, 1, 7, 10, -1, 2, 10, 6, -1]
def triRow105 : List Int := [1, 6, 2, -1, 8, 6, 1, -1, 7, 6, 8, -1, 10, 1, 6, -1, 8, 10, 6, -1]
def triRow106 : List Int := [0, 2, 3, -1, 4, 7, 6, -1, 0, 3, 6, -1, 2, 7, 3, -1, 10, 0, 6, -1, 7, 10, 6, -1]
def triRow107 : List Int := [2, 3, 4, -1, 2, 4, 7, -1, 10, 2, 7, -1, 4, 10, 7, -1]
def triRow108 : List Int := [1, 2, 6, -1, 1, 6, 7, -1, 9, 10, 1, -1, 6, 9, 1, -1, 7, 10, 9, -1]
def triRow109 : List Int := [1, 6, 2, -1, 8, 6, 1, -1, 7, 6, 8, -1, 9, 10, 1, -1]
def triRow110 : List Int := [3, 0, 2, -1, 3, 2, 7, -1, 3, 7, 4, -1, 0, 7, 2, -1, 9, 10, 1, -1, 6, 8, 7, -1]
def triRow111 : List Int := [2, 3, 4, -1, 2, 4, 7, -1, 9, 10, 1, -1, 3, 9, 1, -1, 4, 10, 9, -1, 7, 9, 4, -1]
def triRow112 : List Int := [2, 3, 7, -1, 2, 7, 11, -1, 9, 10, 2, -1, 7, 10, 2, -1, 11, 10, 7, -1]
def triRow113 : List Int := [3, 0, 8, -1, 3, 8, 11, -1, 3, 11, 7, -1, 0, 11, 8, -1, 9, 10, 2, -1]
def triRow114 : List Int := [0, 2, 3, -1, 0, 3, 11, -1, 0, 11, 9, -1, 2, 11, 3, -1, 7, 10, 2, -1]
def triRow115 : List Int := [2, 3, 7, -1, 11, 2, 7, -1, 10, 2, 11, -1, -1, -1, -1, -1]
def triRow116 : List Int := [2, 7, 6, -1, 2, 11, 7, -1, -1, -1, -1, -1, -1, -1, -1, -1]
def triRow117 : List Int := [1, 8, 7, -1, 1, 7, 11, -1, 1, 11, 2, -1, 8, 11, 7, -1]
def triRow118 : List Int := [3, 0, 2, -1, 3, 2, 11, -1, 3, 11, 7, -1, 0, 11, 2, -1, 6, 8, 7, -1]
def triRow119 : List Int := [1, 3, 11, -1, 1, 11, 7, -1, 2, 6, 1, -1, 3, 2, 1, -1, 7, 6, 2, -1]
def triRow120 : List Int := [2, 7, 6, -1, 2, 11, 7, -1, 9, 10, 2, -1, 11, 10, 2, -1, 7, 10, 11, -1]
def triRow121 : List Int := [1, 8, 7, -1, 1, 7, 11, -1, 1, 11, 2, -1, 8, 11, 7, -1, 9, 10, 2, -1]
def triRow122 : List Int := [3, 0, 2, -1, 3, 2, 11, -1, 3, 11, 7, -1, 0, 11, 2, -1, 9, 10, 2, -1, 6, 8, 7, -1]
def triRow123 : List Int := [1, 3, 11, -1, 1, 11, 7, -1, 2, 6, 1, -1, 3, 2, 1, -1, 7, 6, 2, -1, 9, 10, 1, -1]
def triRow124 : List Int := [10, 11, 0, -1, 10, 0, 1, -1, -1, -1, -1, -1, -1, -1, -1, -1]
def triRow125 : List Int := [8, 3, 0, -1, 8, 0, 1, -1, 8, 1, 10, -1, 3, 10, 0, -1]
def triRow126 : List Int := [0, 2, 3, -1, 1, 10, 0, -1, 2, 10, 1, -1, -1, -1, -1, -1]
def triRow127 : List Int := [2, 3, 8, -1, 2, 8, 10, -1, 3, 10, 8, -1, -1, -1, -1, -1]
def triRow128 : List Int := [1, 10, 11, -1, 4, 7, 8, -1, 1, 4, 11, -1, 10, 7, 4, -1]
def triRow129 : List Int := [1, 10, 11, -1, 0, 3, 4, -1, 0, 4, 7, -1, 0, 7, 8, -1, 1, 4, 11, -1, 10, 7, 4, -1]
def triRow130 : List Int := [0, 3, 4, -1, 0, 4, 7, -1, 0, 7, 8, -1, 11, 10, 0, -1, 7, 11, 0, -1]
def triRow131 : List Int := [1, 3, 8, -1, 1, 8, 7, -1, 1, 7, 4, -1, 3, 7, 8, -1, 11, 10, 1, -1, 7, 11, 1, -1]
def triRow132 : List Int := [1, 10, 11, -1, 4, 5, 6, -1, 1, 4, 11, -1, 10, 5, 4, -1]
def triRow133 : List Int := [8, 3, 0, -1, 8, 0, 5, -1, 8, 5, 4, -1, 3, 5, 0, -1, 11, 10, 1, -1]
def triRow134 : List Int := [0, 3, 4, -1, 0, 4, 5, -1, 0, 5, 6, -1, 10, 11, 0, -1, 5, 10, 0, -1, 6, 11, 10, -1]
def triRow135 : List Int := [8, 3, 1, -1, 8, 1, 6, -1, 8, 6, 5, -1, 3, 6, 1, -1, 10, 11, 1, -1]
def triRow136 : List Int := [1, 10, 11, -1, 1, 11, 5, -1, 1, 5, 4, -1, 10, 5, 11, -1]
def triRow137 : List Int := [0, 8, 3, -1, 0, 3, 5, -1, 0, 5, 11, -1, 8, 5, 3, -1, 10, 11, 1, -1]
def triRow138 : List Int := [0, 2, 3, -1, 0, 3, 6, -1, 0, 6, 5, -1, 10, 11, 0, -1, 6, 10, 0, -1, 5, 11, 10, -1]
def triRow139 : List Int := [2, 3, 8, -1, 2, 8, 5, -1, 2, 5, 6, -1, 3, 5, 8, -1, 10, 11, 2, -1]
def triRow140 : List Int := [4, 5, 6, -1, 4, 6, 7, -1, 10, 11, 4, -1, 6, 10, 4, -1]
def triRow141 : List Int := [3, 0, 8, -1, 4, 5, 3, -1, 8, 5, 3, -1, 4, 6, 7, -1, 10, 11, 4, -1]
def triRow142 : List Int := [7, 8, 4, -1, 7, 4, 5, -1, 7, 5, 0, -1, 8, 5, 4, -1, 10, 11, 7, -1, 5, 10, 7, -1]
def triRow143 : List Int := [3, 7, 4, -1, 3, 4, 5, -1, 3, 5, 1, -1, 7, 5, 4, -1, 10, 11, 1, -1]
def triRow144 : List Int := [1, 2, 6, -1, 1, 6, 7, -1, 1, 7, 4, -1, 2, 7, 6, -1, 10, 11, 1, -1, 7, 10, 1, -1]
def triRow145 : List Int := [8, 1, 2, -1, 8, 2, 6, -1, 8, 6, 7, -1, 1, 6, 2, -1, 10, 11, 1, -1]
def triRow146 : List Int := [0, 2, 3, -1, 4, 7, 6, -1, 0, 3, 6, -1, 2, 7, 3, -1, 10, 11, 0, -1, 7, 10, 0, -1]
def triRow147 : List Int := [2, 3, 4, -1, 2, 4, 7, -1, 10, 11, 2, -1, 4, 10, 2, -1, 7, 11, 10, -1]
def triRow148 : List Int := [0, 1, 2, -1, 0, 2, 3, -1, -1, -1, -1, -1, -1, -1, -1, -1]
def triRow149 : List Int := [0, 1, 2, -1, 0, 2, 3, -1, 8, 7, 6, -1, 1, 7, 6, -1, 0, 8, 7, -1]
def triRow150 : List Int := [0, 1, 2, -1, 0, 2, 3, -1, 4, 5, 6, -1, 0, 5, 6, -1, 1, 4, 5, -1]
def triRow151 : List Int := [1, 2, 3, -1, 4, 5, 6, -1, -1, -1, -1, -1, -1, -1, -1, -1]
def triRow152 : List Int := [4, 5, 1, -1, 4, 1, 0, -1, -1, -1, -1, -1, -1, -1, -1, -1]
def triRow153 : List Int := [4, 5, 1, -1, 4, 1, 0, -1, 8, 7, 6, -1, 5, 7, 6, -1, 4, 8, 7, -1]
def triRow154 : List Int := [4, 5, 1, -1, 4, 1, 0, -1, 2, 3, 0, -1, 5, 3, 0, -1, 4, 2, 3, -1]
def triRow155 : List Int := [8, 7, 6, -1, 5, 4, 1, -1, 5, 1, 2, -1, 5, 2, 3, -1, 7, 2, 6, -1]
def triRow156 : List Int := [4, 5, 1, -1, 4, 1, 0, -1, 4, 0, 7, -1, 5, 7, 0, -1]
def triRow157 : List Int := [0, 8, 7, -1, 5, 4, 8, -1, -1, -1, -1, -1, -1, -1, -1, -1]
def triRow158 : List Int := [4, 5, 1, -1, 4, 1, 0, -1, 2, 3, 1, -1, 5, 3, 1, -1, 7, 3, 5, -1]
def triRow159 : List Int := [8, 7, 3, -1, 8, 3, 2, -1, 8, 2, 5, -1, 7, 5, 3, -1]
def triRow160 : List Int := [4, 5, 1, -1, 4, 11, 7, -1, 5, 11, 4, -1, -1, -1, -1, -1]
def triRow161 : List Int := [0, 8, 7, -1, 0, 7, 11, -1, 0, 11, 5, -1, 8, 11, 7, -1]
def triRow162 : List Int := [1, 0, 2, -1, 3, 11, 5, -1, 0, 11, 5, -1, 2, 3, 11, -1, 4, 7, 1, -1]
def triRow163 : List Int := [3, 2, 8, -1, 3, 8, 7, -1, 3, 7, 11, -1, 2, 7, 8, -1, 5, 4, 1, -1]
def triRow164 : List Int := [0, 1, 6, -1, 0, 6, 7, -1, 0, 7, 4, -1, 1, 7, 6, -1]
def triRow165 : List Int := [8, 6, 7, -1, -1, -1, -1, -1, -1, -1, -1, -1, -1, -1, -1, -1]
def triRow166 : List Int := [0, 1, 6, -1, 0, 6, 3, -1, 4, 7, 6, -1, 3, 4, 6, -1, 1, 7, 4, -1]
def triRow167 : List Int := [2, 3, 8, -1, 2, 8, 7, -1, 4, 6, 8, -1, 7, 4, 8, -1]
def triRow168 : List Int := [1, 2, 10, -1, 1, 10, 11, -1, 1, 11, 4, -1, 2, 4, 10, -1]
def triRow169 : List Int := [3, 0, 8, -1, 3, 8, 7, -1, 3, 7, 11, -1, 0, 7, 8, -1, 1, 2, 10, -1, 4, 11, 7, -1]
def triRow170 : List Int := [0, 1, 2, -1, 0, 2, 3, -1, 4, 7, 11, -1, 0, 7, 11, -1, 1, 4, 7, -1]
def triRow171 : List Int := [1, 2, 10, -1, 3, 8, 7, -1, 2, 8, 10, -1, 7, 3, 8, -1, 4, 11, 7, -1, 10, 11, 2, -1]
def triRow172 : List Int := [0, 1, 2, -1, 8, 9, 10, -1, 1, 8, 2, -1, 9, 10, 8, -1]
def triRow173 : List Int := [3, 0, 1, -1, 3, 1, 2, -1, 8, 9, 10, -1, -1, -1, -1, -1]
def triRow174 : List Int := [0, 1, 2, -1, 0, 2, 3, -1, 8, 9, 10, -1, 2, 8, 3, -1, 9, 10, 8, -1]
def triRow175 : List Int := [1, 2, 3, -1, 8, 9, 10, -1, -1, -1, -1, -1, -1, -1, -1, -1]
def triRow176 : List Int := [0, 1, 2, -1, 4, 5, 1, -1, 2, 4, 1, -1, -1, -1, -1, -1]
def triRow177 : List Int := [3, 0, 1, -1, 3, 1, 2, -1, 4, 5, 1, -1, -1, -1, -1, -1]
def triRow178 : List Int := [0, 1, 2, -1, 0, 2, 3, -1, 4, 5, 1, -1, 3, 4, 1, -1, 2, 5, 4, -1]
def triRow179 : List Int := [1, 2, 3, -1, 4, 5, 1, -1, -1, -1, -1, -1, -1, -1, -1, -1]
def triRow180 : List Int := [1, 2, 6, -1, 1, 6, 7, -1, 0, 4, 5, -1, 2, 4, 5, -1, 1, 0, 4, -1]
def triRow181 : List Int := [1, 2, 6, -1, 1, 6, 7, -1, 3, 0, 4, -1, 2, 3, 4, -1, 1, 0, 3, -1]
def triRow182 : List Int := [0, 1, 2, -1, 0, 2, 3, -1, 4, 5, 6, -1, -1, -1, -1, -1]
def triRow183 : List Int := [1, 2, 3, -1, 4, 5, 6, -1, -1, -1, -1, -1, -1, -1, -1, -1]
def triRow184 : List Int := [1, 2, 11, -1, 4, 7, 6, -1, 2, 7, 6, -1, 11, 4, 7, -1]
def triRow185 : List Int := [1, 2, 11, -1, 3, 0, 8, -1, 2, 0, 8, -1, 11, 3, 0, -1]
def triRow186 : List Int := [0, 1, 2, -1, 0, 2, 3, -1, 4, 7, 6, -1, 3, 4, 6, -1, 2, 7, 4, -1, 0, 3, 4, -1]
def triRow187 : List Int := [1, 2, 3, -1, 4, 7, 6, -1, -1, -1, -1, -1, -1, -1, -1, -1]
def triRow188 : List Int := [1, 2, 11, -1, 1, 11, 5, -1, 1, 5, 4, -1, 2, 5, 11, -1]
def triRow189 : List Int := [0, 8, 3, -1, 0, 3, 5, -1, 0, 5, 11, -1, 8, 5, 3, -1, 2, 1, 4, -1]
def triRow190 : List Int := [0, 1, 2, -1, 0, 2, 3, -1, 4, 5, 11, -1, 0, 5, 11, -1, 1, 4, 5, -1]
def triRow191 : List Int := [1, 2, 3, -1, 4, 5, 11, -1, 8, 5, 3, -1, 11, 2, 1, -1, 4, 8, 1, -1]
def triRow192 : List Int := [1, 2, 10, -1, 1, 10, 7, -1, 1, 7, 6, -1, 2, 7, 10, -1]
def triRow193 : List Int := [8, 7, 6, -1, 1, 2, 10, -1, 8, 1, 6, -1, 7, 2, 1, -1, 10, 8, 1, -1]
def triRow194 : List Int := [0, 1, 2, -1, 0, 2, 3, -1, 4, 7, 6, -1, 1, 7, 6, -1, 0, 8, 7, -1, 2, 4, 3, -1]
def triRow195 : List Int := [1, 2, 10, -1, 3, 4, 7, -1, 2, 4, 10, -1, 7, 1, 3, -1, 6, 10, 4, -1]
def triRow196 : List Int := [0, 1, 9, -1, 0, 9, 11, -1, 0, 11, 7, -1, 1, 11, 9, -1]
def triRow197 : List Int := [8, 9, 1, -1, 8, 1, 0, -1, 8, 0, 7, -1, 9, 0, 1, -1]
def triRow198 : List Int := [0, 1, 9, -1, 0, 9, 2, -1, 3, 7, 9, -1, 2, 3, 9, -1, 1, 7, 3, -1]
def triRow199 : List Int := [3, 2, 8, -1, 3, 8, 7, -1, 9, 1, 8, -1, 2, 9, 8, -1]
def triRow200 : List Int := [0, 1, 9, -1, 0, 9, 11, -1, 5, 4, 9, -1, 11, 5, 9, -1]
def triRow201 : List Int := [8, 9, 1, -1, 8, 1, 0, -1, 8, 0, 4, -1, 9, 4, 1, -1, 5, 8, 4, -1]
def triRow202 : List Int := [0, 1, 9, -1, 0, 9, 2, -1, 3, 4, 9, -1, 2, 3, 9, -1, 1, 5, 4, -1]
def triRow203 : List Int := [3, 2, 8, -1, 3, 8, 4, -1, 3, 4, 5, -1, 2, 4, 8, -1, 1, 9, 5, -1]
def triRow204 : List Int := [0, 1, 9, -1, 0, 9, 11, -1, 0, 11, 7, -1, 1, 11, 9, -1, 2, 10, 3, -1]
def triRow205 : List Int := [8, 9, 1, -1, 8, 1, 0, -1, 8, 0, 7, -1, 9, 0, 1, -1, 2, 10, 3, -1]
def triRow206 : List Int := [0, 1, 9, -1, 0, 9, 2, -1, 3, 7, 9, -1, 2, 3, 9, -1, 1, 7, 3, -1, 10, 2, 7, -1]
def triRow207 : List Int := [3, 2, 8, -1, 3, 8, 7, -1, 9, 1, 8, -1, 2, 9, 8, -1, 10, 3, 7, -1]
def triRow208 : List Int := [1, 2, 10, -1, 1, 10, 11, -1, 5, 4, 1, -1, 10, 4, 1, -1, 11, 5, 4, -1]
def triRow209 : List Int := [1, 2, 10, -1, 1, 10, 11, -1, 0, 8, 3, -1, 2, 8, 10, -1, 11, 0, 8, -1]
def triRow210 : List Int := [0, 1, 2, -1, 0, 2, 3, -1, 4, 5, 10, -1, 0, 5, 10, -1, 1, 4, 5, -1, 3, 11, 2, -1]
def triRow211 : List Int := [1, 2, 3, -1, 4, 5, 10, -1, 8, 5, 3, -1, 10, 2, 1, -1, 4, 8, 1, -1, 11, 2, 3, -1]
def triRow212 : List Int := [1, 2, 10, -1, 1, 10, 11, -1, 1, 11, 7, -1, 2, 7, 10, -1, 3, 8, 4, -1]
def triRow213 : List Int := [1, 2, 10, -1, 1, 10, 11, -1, 8, 7, 6, -1, 2, 7, 10, -1, 11, 8, 7, -1]
def triRow214 : List Int := [0, 1, 2, -1, 0, 2, 3, -1, 4, 7, 6, -1, 1, 7, 6, -1, 0, 8, 7, -1, 10, 11, 3, -1]
def triRow215 : List Int := [1, 2, 3, -1, 4, 7, 6, -1, 10, 11, 1, -1, -1, -1, -1, -1]
def triRow216 : List Int := [0, 4, 5, -1, 0, 5, 11, -1, 0, 11, 10, -1, 4, 11, 5, -1]
def triRow217 : List Int := [1, 0, 8, -1, 1, 8, 3, -1, 4, 5, 11, -1, 0, 5, 11, -1, 1, 4, 5, -1]
def triRow218 : List Int := [0, 4, 5, -1, 0, 5, 2, -1, 0, 2, 3, -1, 4, 2, 5, -1]
def triRow219 : List Int := [1, 0, 8, -1, 1, 8, 3, -1, 2, 4, 5, -1, 0, 4, 8, -1, 3, 2, 4, -1]
def triRow220 : List Int := [0, 4, 5, -1, 0, 5, 11, -1, 0, 11, 10, -1, 4, 11, 5, -1, 1, 2, 6, -1]
def triRow221 : List Int := [3, 1, 0, -1, 3, 0, 8, -1, 5, 11, 4, -1, 1, 2, 6, -1, 0, 5, 8, -1, 11, 6, 2, -1]
def triRow222 : List Int := [0, 4, 5, -1, 0, 5, 2, -1, 0, 2, 3, -1, 4, 2, 5, -1, 6, 11, 10, -1]
def triRow223 : List Int := [1, 0, 8, -1, 1, 8, 3, -1, 2, 4, 5, -1, 0, 4, 8, -1, 3, 2, 4, -1, 6, 11, 10, -1]
def triRow224 : List Int := [0, 4, 5, -1, 8, 9, 10, -1, 4, 8, 5, -1, 9, 10, 8, -1]
def triRow225 : List Int := [1, 0, 3, -1, 4, 5, 3, -1, 0, 5, 3, -1, -1, -1, -1, -1, 8, 9, 10, -1]
def triRow226 : List Int := [0, 4, 5, -1, 0, 5, 2, -1, 0, 2, 3, -1, 4, 2, 5, -1, 8, 9, 10, -1]
def triRow227 : List Int := [1, 0, 3, -1, 4, 5, 3, -1, 0, 5, 3, -1, 2, 8, 9, -1, 10, 4, 5, -1]
def triRow228 : List Int := [0, 4, 5, -1, 8, 9, 10, -1, 4, 8, 5, -1, 9, 10, 8, -1, 1, 2, 6, -1]
def triRow229 : List Int := [1, 0, 3, -1, 4, 5, 3, -1, 0, 5, 3, -1, 1, 2, 6, -1, 8, 9, 10, -1]
def triRow230 : List Int := [0, 4, 5, -1, 0, 5, 2, -1, 0, 2, 3, -1, 4, 2, 5, -1, 8, 9, 10, -1, 1, 6, 2, -1]
def triRow231 : List Int := [1, 0, 3, -1, 4, 5, 3, -1, 0, 5, 3, -1, 1, 2, 6, -1, 8, 9, 10, -1, 2, 5, 1, -1]
def triRow232 : List Int := [0, 4, 5, -1, 8, 9, 10, -1, 11, 7, 6, -1, 4, 8, 5, -1, 9, 10, 8, -1, 11, 7, 6, -1]
def triRow233 : List Int := [1, 0, 3, -1, 4, 5, 3, -1, 0, 5, 3, -1, 8, 9, 10, -1, 11, 7, 6, -1]
def triRow234 : List Int := [0, 4, 5, -1, 0, 5, 2, -1, 0, 2, 3, -1, 4, 2, 5, -1, 8, 9, 10, -1, 11, 7, 6, -1]
def triRow235 : List Int := [1, 0, 3, -1, 4, 5, 3, -1, 0, 5, 3, -1, 1, 2, 6, -1, 8, 9, 10, -1, 11, 7, 6, -1]
def triRow236 : List Int := [8, 9, 4, -1, -1, -1, -1, -1, -1, -1, -1, -1, -1, -1, -1, -1]
def triRow237 : List Int := [0, 3, 4, -1, 0, 4, 9, -1, 0, 9, 8, -1, 3, 9, 4, -1]
def triRow238 : List Int := [0, 3, 4, -1, 1, 2, 9, -1, 0, 1, 9, -1, 3, 2, 1, -1]
def triRow239 : List Int := [1, 2, 3, -1, 9, 8, 3, -1, -1, -1, -1, -1, -1, -1, -1, -1]
def triRow240 : List Int := [1, 2, 4, -1, 1, 4, 9, -1, 1, 9, 8, -1, 2, 9, 4, -1]
def triRow241 : List Int := [0, 3, 4, -1, 0, 4, 9, -1, 0, 9, 8, -1, 3, 9, 4, -1, 1, 2, 0, -1]
def triRow242 : List Int := [0, 2, 3, -1, 0, 3, 8, -1, 0, 8, 9, -1, 2, 8, 3, -1]
def triRow243 : List Int := [3, 8, 9, -1, 2, 3, 9, -1, -1, -1, -1, -1, -1, -1, -1, -1]
def triRow244 : List Int := [4, 7, 9, -1, 4, 9, 8, -1, -1, -1, -1, -1, -1, -1, -1, -1]
def triRow245 : List Int := [0, 3, 4, -1, 0, 4, 7, -1, 0, 7, 9, -1, 3, 7, 4, -1]
def triRow246 : List Int := [0, 3, 4, -1, 0, 4, 7, -1, 1, 2, 9, -1, 3, 1, 9, -1, 0, 2, 1, -1]
def triRow247 : List Int := [1, 2, 3, -1, 4, 7, 3, -1, 9, 8, 3, -1, 2, 4, 3, -1, 7, 9, 4, -1]
def triRow248 : List Int := [1, 2, 4, -1, 1, 4, 7, -1, 1, 7, 9, -1, 2, 7, 4, -1]
def triRow249 : List Int := [0, 3, 4, -1, 0, 4, 7, -1, 1, 2, 0, -1, 3, 7, 4, -1, 2, 7, 0, -1]
def triRow250 : List Int := [0, 2, 3, -1, 0, 3, 8, -1, 4, 7, 8, -1, 3, 4, 8, -1, 2, 7, 4, -1]
def triRow251 : List Int := [2, 3, 4, -1, 2, 4, 7, -1, -1, -1, -1, -1, -1, -1, -1, -1]
def triRow252 : List Int := [4, 5, 6, -1, 9, 8, 4, -1, 5, 6, 8, -1, -1, -1, -1, -1]
def triRow253 : List Int := [0, 3, 4, -1, 0, 4, 9, -1, 0, 9, 8, -1, 3, 9, 4, -1, 5, 6, 0, -1]
def triRow254 : List Int := [0, 3, 4, -1, 1, 2, 9, -1, 0, 1, 9, -1, 3, 2, 1, -1, 5, 6, 3, -1]
def triRow255 : List Int := [1, 2, 3, -1, 9, 8, 3, -1, 5, 6, 3, -1, -1, -1, -1, -1]
def triRow256 : List Int := [1, 2, 4, -1, 1, 4, 9, -1, 1, 9, 8, -1, 2, 9, 4, -1, 5, 6, 1, -1]
def triRow257 : List Int := [0, 3, 4, -1, 0, 4, 9, -1, 0, 9, 8, -1, 3, 9, 4, -1, 1, 2, 0, -1, 5, 6, 1, -1]
def triRow258 : List Int := [0, 2, 3, -1, 0, 3, 8, -1, 0, 8, 9, -1, 2, 8, 3, -1, 5, 6, 2, -1]
def triRow259 : List Int := [2, 3, 9, -1, 8, 3, 9, -1, 5, 6, 2, -1, -1, -1, -1, -1]
def triRow260 : List Int := [4, 5, 6, -1, 4, 6, 7, -1, 4, 7, 9, -1, 5, 7, 6, -1]
def triRow261 : List Int := [0, 3, 4, -1, 0, 4, 7, -1, 5, 6, 0, -1, 4, 9, 7, -1, 3, 5, 0, -1, 6, 9, 5, -1]
def triRow262 : List Int := [0, 3, 4, -1, 0, 4, 7, -1, 1, 2, 9, -1, 3, 1, 9, -1, 0, 2, 1, -1, 5, 6, 3, -1, 7, 5, 3, -1]
def triRow263 : List Int := [1, 2, 3, -1, 4, 7, 3, -1, 9, 8, 3, -1, 2, 4, 3, -1, 7, 9, 4, -1, 5, 6, 2, -1]
def triRow264 : List Int := [1, 2, 4, -1, 1, 4, 7, -1, 1, 7, 9, -1, 2, 7, 4, -1, 5, 6, 1, -1, 7, 5, 1, -1]
def triRow265 : List Int := [0, 3, 4, -1, 0, 4, 7, -1, 1, 2, 0, -1, 3, 7, 4, -1, 2, 7, 0, -1, 5, 6, 1, -1, 7, 5, 1, -1]
def triRow266 : List Int := [0, 2, 3, -1, 0, 3, 8, -1, 4, 7, 8, -1, 3, 4, 8, -1, 2, 7, 4, -1, 5, 6, 2, -1, 7, 5, 2, -1]
def triRow267 : List Int := [2, 3, 4, -1, 2, 4, 7, -1, 5, 6, 2, -1, 4, 5, 2, -1, 7, 6, 5, -1]
def triRow268 : List Int := [9, 10, 11, -1, 8, 7, 6, -1, 9, 8, 11, -1, 7, 6, 8, -1]
def triRow269 : List Int := [0, 3, 9, -1, 0, 9, 11, -1, 0, 11, 10, -1, 3, 11, 9, -1, 8, 7, 6, -1]
def triRow270 : List Int := [0, 1, 2, -1, 9, 10, 11, -1, 1, 9, 0, -1, 2, 10, 9, -1, 8, 7, 6, -1]
def triRow271 : List Int := [1, 2, 3, -1, 9, 10, 11, -1, 8, 7, 6, -1, -1, -1, -1, -1]
def triRow272 : List Int := [1, 2, 4, -1, 9, 10, 11, -1, 8, 7, 6, -1, 1, 8, 4, -1, 2, 7, 8, -1, 10, 11, 9, -1]
def triRow273 : List Int := [1, 2, 0, -1, 4, 7, 0, -1, 3, 0, 4, -1, -1, -1, -1, -1, 8, 9, 10, -1, 11, 6, 5, -1]
def triRow274 : List Int := [0, 1, 2, -1, 0, 2, 3, -1, 4, 7, 8, -1, 9, 10, 11, -1, -1, -1, -1, -1]
def triRow275 : List Int := [1, 2, 3, -1, 4, 7, 8, -1, 9, 10, 11, -1, -1, -1, -1, -1]
def triRow276 : List Int := [4, 5, 6, -1, 8, 9, 4, -1, 5, 9, 4, -1, -1, -1, -1, -1]
def triRow277 : List Int := [8, 9, 0, -1, 8, 0, 3, -1, 8, 3, 4, -1, 9, 3, 0, -1]
def triRow278 : List Int := [0, 1, 2, -1, 8, 9, 5, -1, 0, 5, 4, -1, 1, 5, 9, -1]
def triRow279 : List Int := [1, 2, 3, -1, 8, 9, 5, -1, 4, 3, 5, -1, -1, -1, -1, -1]
def triRow280 : List Int := [1, 2, 6, -1, 1, 6, 5, -1, 8, 9, 6, -1, 5, 8, 6, -1]
def triRow281 : List Int := [0, 3, 8, -1, 0, 8, 5, -1, 0, 5, 6, -1, 3, 5, 8, -1]
def triRow282 : List Int := [0, 1, 2, -1, 0, 1, 6, -1, 0, 6, 5, -1, 1, 5, 6, -1]
def triRow283 : List Int := [5, 6, 8, -1, 3, 5, 8, -1, -1, -1, -1, -1, -1, -1, -1, -1]
def triRow284 : List Int := [4, 5, 6, -1, 4, 6, 7, -1, 8, 9, 7, -1, 6, 8, 7, -1]
def triRow285 : List Int := [0, 3, 8, -1, 5, 6, 3, -1, 7, 3, 6, -1, -1, -1, -1, -1]
def triRow286 : List Int := [0, 1, 2, -1, 4, 7, 5, -1, 0, 5, 1, -1, 7, 5, 4, -1]
def triRow287 : List Int := [1, 2, 3, -1, 4, 7, 5, -1, 8, 3, 5, -1, -1, -1, -1, -1]
def triRow288 : List Int := [1, 2, 6, -1, 1, 6, 7, -1, 8, 9, 7, -1, 1, 8, 7, -1]
def triRow289 : List Int := [8, 9, 7, -1, 1, 8, 7, -1, -1, -1, -1, -1, -1, -1, -1, -1]
def triRow290 : List Int := [0, 1, 2, -1, 0, 1, 3, -1, 4, 7, 3, -1, 1, 4, 3, -1]
def triRow291 : List Int := [2, 3, 8, -1, 4, 7, 8, -1, -1, -1, -1, -1, -1, -1, -1, -1]
def triRow292 : List Int := [9, 10, 11, -1, 7, 8, 4, -1, 10, 8, 4, -1, 11, 7, 8, -1]
def triRow293 : List Int := [11, 10, 9, -1, 11, 9, 0, -1, 11, 0, 3, -1, 9, 3, 0, -1, 7, 8, 4, -1]
def triRow294 : List Int := [0, 1, 2, -1, 9, 10, 11, -1, 1, 9, 0, -1, 2, 10, 9, -1, 7, 8, 4, -1]
def triRow295 : List Int := [1, 2, 3, -1, 9, 10, 11, -1, 7, 8, 4, -1, -1, -1, -1, -1]
def triRow296 : List Int := [1, 2, 11, -1, 1, 11, 9, -1, 7, 8, 4, -1, 2, 8, 11, -1, 9, 4, 8, -1]
def triRow297 : List Int := [1, 2, 11, -1, 1, 11, 9, -1, 0, 3, 4, -1, 2, 3, 11, -1, 9, 0, 3, -1, 7, 8, 4, -1]
def triRow298 : List Int := [0, 1, 2, -1, 0, 1, 9, -1, 0, 9, 11, -1, 1, 11, 9, -1, 7, 8, 4, -1]
def triRow299 : List Int := [1, 2, 3, -1, 1, 3, 9, -1, 1, 9, 11, -1, 3, 11, 9, -1, 7, 8, 4, -1]
def triRow300 : List Int := [4, 5, 6, -1, 7, 8, 4, -1, 9, 10, 11, -1, 5, 8, 4, -1, 6, 7, 8, -1, 9, 10, 11, -1]
def triRow301 : List Int := [11, 10, 9, -1, 4, 5, 6, -1, 0, 3, 9, -1, 5, 3, 9, -1, 6, 11, 3, -1, 4, 0, 3, -1]
def triRow302 : List Int := [0, 1, 2, -1, 4, 5, 6, -1, 9, 10, 11, -1, 1, 9, 0, -1, 2, 10, 9, -1, 5, 8, 4, -1]
def triRow303 : List Int := [1, 2, 3, -1, 4, 5, 6, -1, 9, 10, 11, -1, 8, 7, 3, -1, 5, 8, 3, -1, 6, 7, 5, -1]
def triRow304 : List Int := [1, 2, 11, -1, 1, 11, 9, -1, 4, 5, 6, -1, 2, 5, 11, -1, 9, 4, 5, -1]
def triRow305 : List Int := [1, 2, 11, -1, 1, 11, 9, -1, 3, 0, 8, -1, 2, 0, 11, -1, 9, 3, 0, -1, 5, 4, 6, -1]
def triRow306 : List Int := [0, 1, 2, -1, 0, 1, 9, -1, 0, 9, 11, -1, 1, 11, 9, -1, 3, 4, 5, -1, 6, 0, 3, -1]
def triRow307 : List Int := [1, 2, 3, -1, 1, 3, 9, -1, 1, 9, 11, -1, 3, 11, 9, -1, 4, 5, 6, -1, 8, 7, 0, -1]
def triRow308 : List Int := [4, 5, 6, -1, 7, 8, 4, -1, 10, 11, 1, -1, 5, 8, 4, -1, 6, 7, 8, -1, 10, 11, 1, -1]
def triRow309 : List Int := [4, 5, 6, -1, 7, 8, 4, -1, 3, 0, 10, -1, 5, 8, 4, -1, 6, 7, 8, -1, 0, 10, 3, -1, 11, 1, 10, -1]
def triRow310 : List Int := [0, 1, 2, -1, 0, 1, 3, -1, 4, 5, 6, -1, 7, 8, 3, -1, 5, 8, 3, -1, 6, 7, 5, -1, 10, 11, 0, -1]
def triRow311 : List Int := [1, 2, 3, -1, 4, 5, 6, -1, 7, 8, 3, -1, 10, 11, 1, -1, -1, -1, -1]

/-- Rows 0 to 38 of the triangle table. -/
def triTablePart0 : List (List Int) := [triRow0, triRow1, triRow2, triRow3, triRow4, triRow5, triRow6, triRow7, triRow8, triRow9, triRow10, triRow11, triRow12, triRow13, triRow14, triRow15, triRow16, triRow17, triRow18, triRow19, triRow20, triRow21, triRow22, triRow23, triRow24, triRow25, triRow26, triRow27, triRow28, triRow29, triRow30, triRow31, triRow32, triRow33, triRow34, triRow35, triRow36, triRow37, triRow38]
/-- Rows 39 to 77 of the triangle table. -/
def triTablePart1 : List (List Int) := [triRow39, triRow40, triRow41, triRow42, triRow43, triRow44, triRow45, triRow46, triRow47, triRow48, triRow49, triRow50, triRow51, triRow52, triRow53, triRow54, triRow55, triRow56, triRow57, triRow58, triRow59, triRow60, triRow61, triRow62, triRow63, triRow64, triRow65, triRow66, triRow67, triRow68, triRow69, triRow70, triRow71, triRow72, triRow73, triRow74, triRow75, triRow76, triRow77]
/-- Rows 78 to 116 of the triangle table. -/
def triTablePart2 : List (List Int) := [triRow78, triRow79, triRow80, triRow81, triRow82, triRow83, triRow84, triRow85, triRow86, triRow87, triRow88, triRow89, triRow90, triRow91, triRow92, triRow93, triRow94, triRow95, triRow96, triRow97, triRow98, triRow99, triRow100, triRow101, triRow102, triRow103, triRow104, triRow105, triRow106, triRow107, triRow108, triRow109, triRow110, triRow111, triRow112, triRow113, triRow114, triRow115, triRow116]
/-- Rows 117 to 155 of the triangle table. -/
def triTablePart3 : List (List Int) := [triRow117, triRow118, triRow119, triRow120, triRow121, triRow122, triRow123, triRow124, triRow125, triRow126, triRow127, triRow128, triRow129, triRow130, triRow131, triRow132, triRow133, triRow134, triRow135, triRow136, triRow137, triRow138, triRow139, triRow140, triRow141, triRow142, triRow143, triRow144, triRow145, triRow146, triRow147, triRow148, triRow149, triRow150, triRow151, triRow152, triRow153, triRow154, triRow155]
/-- Rows 156 to 194 of the triangle table. -/
def triTablePart4 : List (List Int) := [triRow156, triRow157, triRow158, triRow159, triRow160, triRow161, triRow162, triRow163, triRow164, triRow165, triRow166, triRow167, triRow168, triRow169, triRow170, triRow171, triRow172, triRow173, triRow174, triRow175, triRow176, triRow177, triRow178, triRow179, triRow180, triRow181, triRow182, triRow183, triRow184, triRow185, triRow186, triRow187, triRow188, triRow189, triRow190, triRow191, triRow192, triRow193, triRow194]
/-- Rows 195 to 233 of the triangle table. -/
def triTablePart5 : List (List Int) := [triRow195, triRow196, triRow197, triRow198, triRow199, triRow200, triRow201, triRow202, triRow203, triRow204, triRow205, triRow206, triRow207, triRow208, triRow209, triRow210, triRow211, triRow212, triRow213, triRow214, triRow215, triRow216, triRow217, triRow218, triRow219, triRow220, triRow221, triRow222, triRow223, triRow224, triRow225, triRow226, triRow227, triRow228, triRow229, triRow230, triRow231, triRow232, triRow233]
/-- Rows 234 to 272 of the triangle table. -/
def triTablePart6 : List (List Int) := [triRow234, triRow235, triRow236, triRow237, triRow238, triRow239, triRow240, triRow241, triRow242, triRow243, triRow244, triRow245, triRow246, triRow247, triRow248, triRow249, triRow250, triRow251, triRow252, triRow253, triRow254, triRow255, triRow256, triRow257, triRow258, triRow259, triRow260, triRow261, triRow262, triRow263, triRow264, triRow265, triRow266, triRow267, triRow268, triRow269, triRow270, triRow271, triRow272]
/-- Rows 273 to 311 of the triangle table. -/
def triTablePart7 : List (List Int) := [triRow273, triRow274, triRow275, triRow276, triRow277, triRow278, triRow279, triRow280, triRow281, triRow282, triRow283, triRow284, triRow285, triRow286, triRow287, triRow288, triRow289, triRow290, triRow291, triRow292, triRow293, triRow294, triRow295, triRow296, triRow297, triRow298, triRow299, triRow300, triRow301, triRow302, triRow303, triRow304, triRow305, triRow306, triRow307, triRow308, triRow309, triRow310, triRow311]

/-- The triangle table of the marching-cubes extractor (src/index.tsx,
MarchingCubes.triTable). The source literal holds 312 rows; only the first
256 are reachable from a cube index. -/
def triTable : List (List Int) :=
  triTablePart0 ++ triTablePart1 ++ triTablePart2 ++ triTablePart3 ++ triTablePart4 ++ triTablePart5 ++ triTablePart6 ++ triTablePart7

/-- A vertex of the extracted mesh. -/
abbrev MCPoint := ℚ × ℚ × ℚ

/-- MarchingCubes.vertexInterp (lines 1431-1456): when the corner values
differ by less than 1e-9, return the first endpoint without dividing;
otherwise interpolate. The Number.isFinite failsafe of lines 1451-1453 is
vacuous in exact rational arithmetic, where the guarded division (divisor of
magnitude at least 1e-9) always yields a finite rational. -/
def vertexInterp (isolevel : ℚ) (p1 p2 : MCPoint) (valp1 valp2 : ℚ) : MCPoint :=
  let diff := valp2 - valp1
  if |diff| < 1e-9 then p1
  else
    let mu := (isolevel - valp1) / diff
    (p1.1 + mu * (p2.1 - p1.1), p1.2.1 + mu * (p2.2.1 - p1.2.1),
      p1.2.2 + mu * (p2.2.2 - p1.2.2))

/-- getVal (lines 1376-1379): lattice nodes outside the sampled bounds read
as 0. Coordinates are naturals here, so only the upper bounds are tested. -/
def getVal (data : List ℚ) (dimX dimY dimZ : ℕ) (x y z : ℕ) : ℚ :=
  if x ≥ dimX ∨ y ≥ dimY ∨ z ≥ dimZ then 0
  else data.getD (x + y * dimX + z * dimX * dimY) 0

/-- The 8 cube corner positions in table order (lines 1384-1387). -/
def cubeCorners (x y z : ℕ) : List (ℕ × ℕ × ℕ) :=
  [(x, y, z), (x+1, y, z), (x+1, y+1, z), (x, y+1, z),
   (x, y, z+1), (x+1, y, z+1), (x+1, y+1, z+1), (x, y+1, z+1)]

/-- The value at cube corner i (line 1388). -/
def cornerVal (data : List ℚ) (dimX dimY dimZ : ℕ) (x y z : ℕ) (i : ℕ) : ℚ :=
  let c := (cubeCorners x y z).getD i (0, 0, 0)
  getVal data dimX dimY dimZ c.1 c.2.1 c.2.2

/-- The 8-bit cube configuration index (lines 1390-1398): bit i is set when
corner i's value is below the isolevel. -/
def cubeIndexAt (data : List ℚ) (dimX dimY dimZ : ℕ) (isolevel : ℚ) (x y z : ℕ) : ℕ :=
  let v := fun i => cornerVal data dimX dimY dimZ x y z i
  (if v 0 < isolevel then 1 else 0) + (if v 1 < isolevel then 2 else 0) +
  (if v 2 < isolevel then 4 else 0) + (if v 3 < isolevel then 8 else 0) +
  (if v 4 < isolevel then 16 else 0) + (if v 5 < isolevel then 32 else 0) +
  (if v 6 < isolevel then 64 else 0) + (if v 7 < isolevel then 128 else 0)

/-- The corner position as a rational point. -/
def cornerPt (x y z : ℕ) (i : ℕ) : MCPoint :=
  let c := (cubeCorners x y z).getD i (0, 0, 0)
  ((c.1 : ℚ), (c.2.1 : ℚ), (c.2.2 : ℚ))

/-- The 12-entry vertex list (lines 1402-1415): entry e is interpolated when
edge e's bit is set in the edge table, and stays null otherwise. Each edge's
endpoint corner pair follows lines 1404-1415. -/
def vertlistAt (data : List ℚ) (dimX dimY dimZ : ℕ) (isolevel : ℚ) (x y z : ℕ) :
    List (Option MCPoint) :=
  let et := edgeTable.getD (cubeIndexAt data dimX dimY dimZ isolevel x y z) 0
  let v := fun i => cornerVal data dimX dimY dimZ x y z i
  let p := fun i => cornerPt x y z i
  let interp := fun (a b : ℕ) => vertexInterp isolevel (p a) (p b) (v a) (v b)
  [ if et &&& 1 ≠ 0 then some (interp 0 1) else none,
    if et &&& 2 ≠ 0 then some (interp 1 2) else none,
    if et &&& 4 ≠ 0 then some (interp 2 3) else none,
    if et &&& 8 ≠ 0 then some (interp 3 0) else none,
    if et &&& 16 ≠ 0 then some (interp 4 5) else none,
    if et &&& 32 ≠ 0 then some (interp 5 6) else none,
    if et &&& 64 ≠ 0 then some (interp 6 7) else none,
    if et &&& 128 ≠ 0 then some (interp 7 4) else none,
    if et &&& 256 ≠ 0 then some (interp 0 4) else none,
    if et &&& 512 ≠ 0 then some (interp 1 5) else none,
    if et &&& 1024 ≠ 0 then some (interp 2 6) else none,
    if et &&& 2048 ≠ 0 then some (interp 3 7) else none ]

/-- The triangle-emission loop (lines 1417-1424): scan the configuration's
table row three entries at a time, stopping at the first -1 met at a scan
position; a triple whose three vertex-list entries are all present pushes
them in the order vertlist(t(i+2)), vertlist(t(i+1)), vertlist(t(i)). -/
def emitTris (vl : List (Option MCPoint)) : List Int → List MCPoint
  | a :: b :: c :: rest =>
    if a = -1 then []
    else
      (match vl.getD c.toNat none, vl.getD b.toNat none, vl.getD a.toNat none with
       | some v1, some v2, some v3 => [v1, v2, v3]
       | _, _, _ => []) ++ emitTris vl rest
  | _ => []

/-- One cube of the extraction loop (lines 1384-1424). -/
def processCube (data : List ℚ) (dimX dimY dimZ : ℕ) (isolevel : ℚ) (x y z : ℕ) :
    List MCPoint :=
  let ci := cubeIndexAt data dimX dimY dimZ isolevel x y z
  if edgeTable.getD ci 0 = 0 then []
  else emitTris (vertlistAt data dimX dimY dimZ isolevel x y z) (triTable.getD ci [])

/-- MarchingCubes.run (lines 1372-1429): the triple loop over all unit cubes,
z outermost and x innermost, concatenating the emitted vertices. -/
def marchingCubesRun (data : List ℚ) (dimX dimY dimZ : ℕ) (isolevel : ℚ) :
    List MCPoint :=
  (List.range (dimZ - 1)).flatMap fun z =>
    (List.range (dimY - 1)).flatMap fun y =>
      (List.range (dimX - 1)).flatMap fun x =>
        processCube data dimX dimY dimZ isolevel x y z

/-- Modelled from the spec: the triangles a triangle-table row lists are its
consecutive triples of edge indices, the -1 entries being separators and
padding ("a fixed 256-entry triangle table giving, for each configuration,
the ordered list of edge-intersection points forming zero or more
triangles"). -/
def chunkTriples : List Int → List (Int × Int × Int)
  | a :: b :: c :: rest => (a, b, c) :: chunkTriples rest
  | _ => []

/-- Modelled from the spec: the list of triangles (as edge-index triples) the
triangle table lists for one configuration row. -/
def listedTriangles (row : List Int) : List (Int × Int × Int) :=
  chunkTriples (row.filter fun t => t ≠ -1)


/-! ## Helper lemmas -/

theorem hypot_nonneg (a b : ℝ) : 0 ≤ hypot a b := Real.sqrt_nonneg _

theorem hypot_eval {a b c : ℝ} (hc : 0 ≤ c) (h : a ^ 2 + b ^ 2 = c ^ 2) :
    hypot a b = c := by
  rw [hypot, h, Real.sqrt_sq hc]

theorem abs_le_hypot (a b : ℝ) : |b| ≤ hypot a b := by
  rw [hypot, ← Real.sqrt_sq_eq_abs]
  exact Real.sqrt_le_sqrt (by nlinarith [sq_nonneg a])

theorem hypot_lt_hypot_right {a b c : ℝ} (h : b ^ 2 < c ^ 2) :
    hypot a b < hypot a c := by
  exact Real.sqrt_lt_sqrt (by positivity) (by linarith)

theorem distToCenterAt_nonneg (p : ScenePipe) (x z : ℝ) :
    0 ≤ distToCenterAt p x z := by
  rw [distToCenterAt]; split <;> exact hypot_nonneg _ _

/-! ## C1 -/

set_option maxRecDepth 40000 in
/-- C1: the claim says the extractor emits every triangle listed in the
triangle table for a cube's configuration (up to 5). On the cube with corner
values [0,0,2,2,2,2,2,2] and isolevel 1 the configuration is 3, whose row
lists two triangles, yet the extractor emits none: the emission loop stops at
the -1 that follows every triple of this table (so at most the first listed
triangle of any configuration could ever be emitted, as the fourth conjunct
records for every reachable row), and here even the first triple (1,0,3)
is dropped because edge 0 is not set in edgeTable[3], leaving a null
vertex-list entry. -/
theorem c1_extractor_drops_listed_triangles :
    marchingCubesRun [0, 0, 2, 2, 2, 2, 2, 2] 2 2 2 1 = [] ∧
    cubeIndexAt [0, 0, 2, 2, 2, 2, 2, 2] 2 2 2 1 0 0 0 = 3 ∧
    (listedTriangles (triTable.getD 3 [])).length = 2 ∧
    ((triTable.take 256).all fun row => row.getD 3 (-1) = -1) = true := by
  exact ⟨by decide, by decide, by decide, by decide⟩

/-! ## C9 -/

/-- C9: the vertex interpolator returns the first endpoint directly (no
division) when the two corner values differ by less than 1e-9, and otherwise
returns the exact interpolation point whose divisor valp2 - valp1 is provably
non-zero; in exact arithmetic every result is therefore a well-defined
(finite) point, which is the content of the source's Number.isFinite
failsafe. -/
theorem c9_vertex_interp_safe (isolevel : ℚ) (p1 p2 : MCPoint) (valp1 valp2 : ℚ) :
    (|valp2 - valp1| < 1e-9 → vertexInterp isolevel p1 p2 valp1 valp2 = p1) ∧
    (vertexInterp isolevel p1 p2 valp1 valp2 = p1 ∨
      (valp2 - valp1 ≠ 0 ∧
        vertexInterp isolevel p1 p2 valp1 valp2 =
          (p1.1 + (isolevel - valp1) / (valp2 - valp1) * (p2.1 - p1.1),
           p1.2.1 + (isolevel - valp1) / (valp2 - valp1) * (p2.2.1 - p1.2.1),
           p1.2.2 + (isolevel - valp1) / (valp2 - valp1) * (p2.2.2 - p1.2.2)))) := by
  constructor
  · intro h
    rw [vertexInterp, if_pos h]
  · by_cases h : |valp2 - valp1| < 1e-9
    · exact Or.inl (by rw [vertexInterp, if_pos h])
    · refine Or.inr ⟨?_, ?_⟩
      · intro h0
        exact h (by rw [h0]; norm_num)
      · rw [vertexInterp, if_neg h]

/-- C9 witness: two equal corner values fall under the epsilon guard and the
first endpoint is returned unchanged. -/
theorem c9_witness : vertexInterp 1 (0, 0, 0) (1, 1, 1) 5 5 = (0, 0, 0) :=
  (c9_vertex_interp_safe 1 (0, 0, 0) (1, 1, 1) 5 5).1 (by norm_num)

/-! ## C6 -/

/-- C6: the claim (and the source's own error message) demand that a pipe's
depth strictly exceed its total outer radius, but validatePipeRow only
rejects when depth is strictly below it: at z = 1 ft and od = 24 in (no
insulation, no bedding) the converted depth equals the converted total radius
exactly, and the row is accepted. -/
theorem c6_boundary_depth_accepted :
    validatePipeRow 1 24 0 0 = true ∧ ftToM 1 = inToM (24 / 2 + 0 + 0) := by
  constructor
  · have h : ¬ (ftToM 1 < inToM (24 / 2 + 0 + 0)) := by norm_num [ftToM, inToM]
    rw [validatePipeRow, if_neg h]
  · norm_num [ftToM, inToM]

/-! ## C7 -/

/-- A heat-source row whose temperature field is blank (parseFloat gives NaN,
modelled as none), with valid geometry: z = 5 ft, od = 10 in. -/
def rowMissingTemp : PipeRowRaw :=
  { role := PipeRole.heat_source, rawTemp := none, z := 5, od := 10, ins := 0, bed := 0 }

/-- C7 counterexample: a calculation whose only pipe is a heat source with a
missing temperature is accepted by the pre-solve gate (not rejected), and the
ingestion substitutes 0 degF = -160/9 degC for the missing value. -/
theorem c7_counterexample :
    handleCalculateAccepts [rowMissingTemp] = true ∧
    resolvedTemp rowMissingTemp = some (-160 / 9) := by
  constructor
  · have h : ¬ (ftToM 5 < inToM (10 / 2 + 0 + 0)) := by norm_num [ftToM, inToM]
    simp only [handleCalculateAccepts, List.all_cons, List.all_nil, Bool.and_true,
      rowMissingTemp]
    rw [validatePipeRow, if_neg h]
  · simp only [resolvedTemp, rowMissingTemp, if_pos rfl, Option.getD_none, FtoC]
    norm_num

/-- C7 (amended): a heat-source pipe lacking a temperature value is never
rejected: handleCalculate's only pre-solve gate is the geometric
validatePipeRow check, and getPipes substitutes 0 degF (-160/9 degC) for the
missing value before the resistance solver runs. -/
theorem c7_missing_temp_substituted (rows : List PipeRowRaw)
    (h : ∀ r ∈ rows, validatePipeRow r.z r.od r.ins r.bed = true) :
    handleCalculateAccepts rows = true ∧
    ∀ r ∈ rows, r.role = PipeRole.heat_source → r.rawTemp = none →
      resolvedTemp r = some (-160 / 9) := by
  constructor
  · rw [handleCalculateAccepts, List.all_eq_true]
    exact h
  · intro r hr hrole htemp
    simp only [resolvedTemp, hrole, if_pos rfl, htemp, Option.getD_none, FtoC]
    norm_num

/-- C7 witness: the amended statement at the concrete single-row input. -/
theorem c7_witness :
    handleCalculateAccepts [rowMissingTemp] = true ∧
    ∀ r ∈ [rowMissingTemp], r.role = PipeRole.heat_source → r.rawTemp = none →
      resolvedTemp r = some (-160 / 9) :=
  c7_missing_temp_substituted [rowMissingTemp] (by
    intro r hr
    rw [List.mem_singleton] at hr
    subst hr
    have h : ¬ (ftToM 5 < inToM (10 / 2 + 0 + 0)) := by norm_num [ftToM, inToM]
    rw [rowMissingTemp] at *
    rw [validatePipeRow, if_neg h])

/-! ## C4 -/

/-- C4: the resistance solver computes exactly the claimed quantities: the
three cylindrical layers equal the specification formula
ln(r_outer/r_inner)/(2 pi k) with the 0 fallback when the conductivity is
zero or the inner radius non-positive (for the non-negative inputs of the
data model), R_total is the sum of the four series resistances, and the heat
flux is (T_pipe - T_soil)/R_total with Q = 0 whenever R_total <= 0. -/
theorem c4_resistance_solver (p : Pipe) (layers : List CalculationSoilLayer)
    (T_soil : ℝ) (hod : 0 ≤ p.od) (hins : 0 ≤ p.ins_thickness)
    (hkp : 0 ≤ p.k_pipe) (hki : 0 ≤ p.k_ins) (hkb : 0 ≤ p.k_bedding) :
    R_pipe p = cylindricalLayerR (p.od / 2) (p.od / 2 - p.thickness) p.k_pipe ∧
    R_ins p = cylindricalLayerR (p.od / 2 + p.ins_thickness) (p.od / 2) p.k_ins ∧
    R_bed p = cylindricalLayerR (p.od / 2 + p.ins_thickness + p.bed_thickness)
      (p.od / 2 + p.ins_thickness) p.k_bedding ∧
    R_total p layers = R_pipe p + R_ins p + R_bed p + R_soil p layers ∧
    sourceQ p layers T_soil =
      if R_total p layers ≤ 0 then 0 else (p.temp - T_soil) / R_total p layers := by
  refine ⟨?_, ?_, ?_, rfl, ?_⟩
  · rw [R_pipe, cylindricalLayerR]
    rcases eq_or_lt_of_le hkp with hk | hk
    · rw [if_neg (by rw [← hk]; simp), if_pos (Or.inl hk.symm)]
    · by_cases hr : p.od / 2 - p.thickness > 0
      · rw [if_pos ⟨hk, hr⟩, if_neg (by push_neg; exact ⟨ne_of_gt hk, hr⟩)]
      · rw [if_neg (by tauto), if_pos (Or.inr (not_lt.mp hr))]
  · rw [R_ins, cylindricalLayerR]
    rcases eq_or_lt_of_le hki with hk | hk
    · rw [if_neg (by rw [← hk]; simp), if_pos (Or.inl hk.symm)]
    · rcases eq_or_lt_of_le (by positivity : (0:ℝ) ≤ p.od / 2) with hr | hr
      · rw [if_pos hk, if_pos (Or.inr (le_of_eq hr.symm)), ← hr, div_zero,
          Real.log_zero, zero_div]
      · rw [if_pos hk, if_neg (by push_neg; exact ⟨ne_of_gt hk, hr⟩)]
  · rw [R_bed, cylindricalLayerR]
    rcases eq_or_lt_of_le hkb with hk | hk
    · rw [if_neg (by rw [← hk]; simp), if_pos (Or.inl hk.symm)]
    · rcases eq_or_lt_of_le (by positivity : (0:ℝ) ≤ p.od / 2 + p.ins_thickness)
        with hr | hr
      · rw [if_pos hk, if_pos (Or.inr (le_of_eq hr.symm)), ← hr, div_zero,
          Real.log_zero, zero_div]
      · rw [if_pos hk, if_neg (by push_neg; exact ⟨ne_of_gt hk, hr⟩)]
  · rw [sourceQ]
    by_cases h : R_total p layers > 0
    · rw [if_pos h, if_neg (not_le.mpr h)]
    · rw [if_neg h, if_pos (not_lt.mp h)]

/-- The regression pipe of spec section 8: bare steel pipe, od 0.1 m, wall
0.01 m, no insulation or bedding, at depth 1.5 m, held at 200 degC. -/
noncomputable def pipeC4 : Pipe :=
  { id := 0, role := PipeRole.heat_source, orientation := PipeOrientation.parallel,
    x := 0, y := 0, z := 3 / 2, temp := 200, od := 1 / 10, thickness := 1 / 100,
    k_pipe := 50, ins_thickness := 0, k_ins := 0, bed_thickness := 0, k_bedding := 0 }

/-- A single uniform soil layer of conductivity 1.5 down to 3 m. -/
noncomputable def layersC4 : List CalculationSoilLayer :=
  [{ k := 3 / 2, thickness := 3, depth_top := 0, depth_bottom := 3 }]

/-- C4 witness: the solver equations instantiated at the concrete regression
pipe. -/
theorem c4_witness :
    R_pipe pipeC4 = cylindricalLayerR (pipeC4.od / 2) (pipeC4.od / 2 - pipeC4.thickness)
      pipeC4.k_pipe ∧
    R_ins pipeC4 = cylindricalLayerR (pipeC4.od / 2 + pipeC4.ins_thickness)
      (pipeC4.od / 2) pipeC4.k_ins ∧
    R_bed pipeC4 = cylindricalLayerR
      (pipeC4.od / 2 + pipeC4.ins_thickness + pipeC4.bed_thickness)
      (pipeC4.od / 2 + pipeC4.ins_thickness) pipeC4.k_bedding ∧
    R_total pipeC4 layersC4 = R_pipe pipeC4 + R_ins pipeC4 + R_bed pipeC4 +
      R_soil pipeC4 layersC4 ∧
    sourceQ pipeC4 layersC4 15 =
      if R_total pipeC4 layersC4 ≤ 0 then 0
      else (pipeC4.temp - 15) / R_total pipeC4 layersC4 :=
  c4_resistance_solver pipeC4 layersC4 15 (by norm_num [pipeC4]) (by norm_num [pipeC4])
    (by norm_num [pipeC4]) (by norm_num [pipeC4]) (by norm_num [pipeC4])

/-! ## C3 -/

/-- C3: at every query point the per-source temperature rise of the point
evaluator equals the claimed formula (Q/(2 pi k_eff_path)) ln(d_image/d_real)
when k_eff_path > 0 and d_image > d_real and 0 otherwise, with d_real clamped
to the source's bedding-inclusive outer radius (the extra d_real > 0 guard of
the source collapses into the formula); and the pipe-to-pipe interaction rise
is the same formula with its own clamped distance. -/
theorem c3_contribution_formula :
    (∀ (sp : ScenePipe) (x z : ℝ) (layers : List CalculationSoilLayer),
      pointSourceRise sp x z layers =
        claimContribution (sp.Q.getD 0) (kEffPathAt sp x z layers) (dImageAt sp x z)
          (max (distToCenterAt sp x z) sp.r_bed)) ∧
    (∀ (s : SourceWithQ) (aff : Pipe) (layers : List CalculationSoilLayer),
      interactionRise s aff layers =
        claimContribution s.Q (interKEff s.pipe aff layers) (interDImage s.pipe aff)
          (max (interDRealRaw s.pipe aff)
            (s.pipe.od / 2 + s.pipe.ins_thickness + s.pipe.bed_thickness))) := by
  constructor
  · intro sp x z layers
    rw [pointSourceRise, claimContribution]
    by_cases h1 : kEffPathAt sp x z layers > 0 ∧
        dImageAt sp x z > max (distToCenterAt sp x z) sp.r_bed
    · by_cases h2 : max (distToCenterAt sp x z) sp.r_bed > 0
      · rw [if_pos ⟨h1.1, h1.2, h2⟩, if_pos h1]
      · have h0 : max (distToCenterAt sp x z) sp.r_bed = 0 :=
          le_antisymm (not_lt.mp h2)
            (le_max_of_le_left (distToCenterAt_nonneg sp x z))
        rw [if_neg (fun hc => h2 hc.2.2), if_pos h1, h0, div_zero, Real.log_zero,
          mul_zero]
    · rw [if_neg (fun hc => h1 ⟨hc.1, hc.2.1⟩), if_neg h1]
  · intro s aff layers
    rfl

/-! ## C5 -/

/-- C5: the total temperature is the soil temperature plus the sum of the
per-source contributions, both in the point evaluator (whenever the early
pipe-loop does not return) and at an affected pipe; and the rise two sources
produce together is the sum of the rises each produces with the other's Q
set to 0. -/
theorem c5_superposition_linearity :
    (∀ (scene : SceneData) (x z : ℝ),
      pipeLoopResult x z scene.T_soil scene.layers scene.pipes = none →
      calculateTemperatureAtPoint x z scene =
        scene.T_soil +
          ((scene.pipes.filter fun p => p.isSource && p.Q.isSome).map
            fun sp => pointSourceRise sp x z scene.layers).sum) ∧
    (∀ (sources : List SourceWithQ) (aff : Pipe)
      (layers : List CalculationSoilLayer) (T_soil : ℝ),
      affectedFinalTemp sources aff layers T_soil =
        T_soil + (sources.map fun s =>
          if s.pipe.id = aff.id then 0 else interactionRise s aff layers).sum) ∧
    (∀ (s1 s2 : SourceWithQ) (aff : Pipe) (layers : List CalculationSoilLayer),
      affectedTotalRise [s1, s2] aff layers =
        affectedTotalRise [s1, { pipe := s2.pipe, Q := 0 }] aff layers +
        affectedTotalRise [{ pipe := s1.pipe, Q := 0 }, s2] aff layers) := by
  refine ⟨?_, fun _ _ _ _ => rfl, ?_⟩
  · intro scene x z h
    rw [calculateTemperatureAtPoint, h]
  · intro s1 s2 aff layers
    have hzero : ∀ (q : Pipe), interactionRise { pipe := q, Q := 0 } aff layers = 0 := by
      intro q
      rw [interactionRise]
      simp
    simp only [affectedTotalRise, List.map_cons, List.map_nil, List.sum_cons,
      List.sum_nil, hzero]
    by_cases e1 : s1.pipe.id = aff.id <;> by_cases e2 : s2.pipe.id = aff.id <;>
      simp [e1, e2]

/-- The empty scene: no pipes, no layers, soil at 15 degC. -/
def emptyScene : SceneData := { T_soil := 15, pipes := [], layers := [] }

/-- C5 witness: the superposition form of the point evaluator at a concrete
scene on which the early pipe-loop returns nothing. -/
theorem c5_witness :
    calculateTemperatureAtPoint 0 1 emptyScene =
      emptyScene.T_soil +
        ((emptyScene.pipes.filter fun p => p.isSource && p.Q.isSome).map
          fun sp => pointSourceRise sp 0 1 emptyScene.layers).sum :=
  c5_superposition_linearity.1 emptyScene 0 1 rfl

/-! ## C8 -/

/-- A two-layer soil: 1 m of conductivity 1/2 over 10 m of conductivity 2. -/
noncomputable def layersC8 : List CalculationSoilLayer :=
  [{ k := 1 / 2, thickness := 1, depth_top := 0, depth_bottom := 1 },
   { k := 2, thickness := 10, depth_top := 1, depth_bottom := 11 }]

/-- C8 (amended): for coincident query points (length below 1e-6) the path
query returns the first layer's conductivity (1.5 when there are no layers or
the first layer's conductivity is 0), regardless of the points' depth. -/
theorem c8_coincident_first_layer (x1 z1 x2 z2 : ℝ)
    (layers : List CalculationSoilLayer)
    (h : hypot (x2 - x1) (z2 - z1) < 1e-6) :
    getEffectiveKForPath x1 z1 x2 z2 layers = firstLayerKFallback layers := by
  rw [getEffectiveKForPath]
  simp only [if_pos h]

/-- C8 counterexample: at the coincident point (0, 5), which lies in the
second soil layer (conductivity 2), the path query returns the first layer's
conductivity 1/2 instead of the conductivity at the point's depth. -/
theorem c8_counterexample :
    getEffectiveKForPath 0 5 0 5 layersC8 ≠ getSoilKAtPoint 5 layersC8 := by
  have hc : hypot ((0:ℝ) - 0) ((5:ℝ) - 5) < 1e-6 := by
    rw [show ((0:ℝ) - 0) = 0 by norm_num, show ((5:ℝ) - 5) = 0 by norm_num,
      hypot_eval le_rfl (by norm_num)]
    norm_num
  have h1 : getEffectiveKForPath 0 5 0 5 layersC8 = 1 / 2 := by
    rw [getEffectiveKForPath]
    rw [if_pos hc, layersC8, firstLayerKFallback, if_neg (by norm_num)]
  have h2 : getSoilKAtPoint 5 layersC8 = 2 := by
    rw [layersC8, getSoilKAtPoint, if_neg (by norm_num)]
    rw [getSoilKAtPoint, if_pos (by norm_num)]
  rw [h1, h2]
  norm_num

/-- C8 witness: the amended statement at the concrete coincident point. -/
theorem c8_witness :
    getEffectiveKForPath 0 5 0 5 layersC8 = firstLayerKFallback layersC8 :=
  c8_coincident_first_layer 0 5 0 5 layersC8 (by
    rw [show ((0:ℝ) - 0) = 0 by norm_num, show ((5:ℝ) - 5) = 0 by norm_num,
      hypot_eval le_rfl (by norm_num)]
    norm_num)

/-! ## C2 -/

theorem abs_sub_le_distToCenterAt (p : ScenePipe) (x z : ℝ) :
    |z - p.z| ≤ distToCenterAt p x z := by
  rw [distToCenterAt]; split <;> exact abs_le_hypot _ _

/-- Above ground, every source whose depth exceeds its (non-negative) outer
radius contributes no rise: the image distance is strictly below the clamped
real distance. -/
theorem c2_rise_zero (sp : ScenePipe) (x z : ℝ)
    (layers : List CalculationSoilLayer) (hz : z < 0) (h0 : 0 ≤ sp.r_bed)
    (h1 : sp.r_bed < sp.z) : pointSourceRise sp x z layers = 0 := by
  have hzs : 0 < sp.z := lt_of_le_of_lt h0 h1
  have hsq : (z + sp.z) ^ 2 < (z - sp.z) ^ 2 := by
    nlinarith [mul_neg_of_neg_of_pos hz hzs]
  have himg : dImageAt sp x z < distToCenterAt sp x z := by
    by_cases ho : sp.orientation = PipeOrientation.parallel
    · rw [dImageAt, distToCenterAt, if_pos ho, if_pos ho]
      exact hypot_lt_hypot_right hsq
    · rw [dImageAt, distToCenterAt, if_neg ho, if_neg ho]
      exact hypot_lt_hypot_right hsq
  have hd : dImageAt sp x z ≤ max (distToCenterAt sp x z) sp.r_bed :=
    le_trans himg.le (le_max_left _ _)
  rw [pointSourceRise]
  exact if_neg (fun hc => absurd hc.2.1 (not_lt.mpr hd))

/-- C2 (amended): for every query point with negative depth, in a scene all
of whose pipes (heat sources and affected pipes alike) have a non-negative
outer radius strictly below their centerline depth — which the pre-solve
validation guarantees — the point evaluator returns exactly the ambient soil
temperature. -/
theorem c2_above_ground_ambient (scene : SceneData) (x z : ℝ) (hz : z < 0)
    (hp : ∀ p ∈ scene.pipes, 0 ≤ p.r_bed ∧ p.r_bed < p.z) :
    calculateTemperatureAtPoint x z scene = scene.T_soil := by
  have hloop : ∀ ps : List ScenePipe, (∀ p ∈ ps, 0 ≤ p.r_bed ∧ p.r_bed < p.z) →
      pipeLoopResult x z scene.T_soil scene.layers ps = none := by
    intro ps
    induction ps with
    | nil => intro _; rfl
    | cons p rest ih =>
      intro hps
      obtain ⟨h0, h1⟩ := hps p (List.mem_cons_self p rest)
      have hskip : ¬ (distToCenterAt p x z ≤ p.r_bed) := by
        have ha := abs_sub_le_distToCenterAt p x z
        have hb : -(z - p.z) ≤ |z - p.z| := neg_le_abs _
        push_neg
        linarith
      rw [pipeLoopResult, if_neg hskip]
      exact ih fun q hq => hps q (List.mem_cons_of_mem p hq)
  rw [calculateTemperatureAtPoint, hloop scene.pipes hp]
  show scene.T_soil + ((scene.pipes.filter fun p => p.isSource && p.Q.isSome).map
    fun sp => pointSourceRise sp x z scene.layers).sum = scene.T_soil
  have hzero : ((scene.pipes.filter fun p => p.isSource && p.Q.isSome).map
      fun sp => pointSourceRise sp x z scene.layers).sum = 0 := by
    apply List.sum_eq_zero
    intro r hr
    obtain ⟨sp, hsp, hrfl⟩ := List.mem_map.mp hr
    obtain ⟨h0, h1⟩ := hp sp (List.mem_of_mem_filter hsp)
    rw [← hrfl]
    exact c2_rise_zero sp x z scene.layers hz h0 h1
  rw [hzero, add_zero]

/-- A shallow affected pipe: bare radius 1/5 m, centerline only 1/20 m deep
(it would be rejected by validation, but the point evaluator is total). -/
noncomputable def pipeC2 : ScenePipe :=
  { id := 0, x := 0, y := 0, z := 1 / 20, orientation := PipeOrientation.parallel,
    r_pipe := 1 / 5, r_ins := 1 / 5, r_bed := 1 / 5, temp := 100,
    isSource := false, Q := none }

/-- The counterexample scene for the claim as stated: no heat sources at all
(so every heat source vacuously satisfies the claimed depth hypothesis), one
shallow affected pipe, soil at 15 degC. -/
noncomputable def sceneC2 : SceneData := { T_soil := 15, pipes := [pipeC2], layers := [] }

/-- C2 counterexample: the query point (0, -1/20) lies above ground, yet the
evaluator returns the shallow affected pipe's stored temperature 100, not the
ambient 15 — the claim's hypothesis constrains heat sources only, and the
early pipe loop runs over affected pipes too. -/
theorem c2_counterexample :
    calculateTemperatureAtPoint 0 (-(1 / 20)) sceneC2 ≠ sceneC2.T_soil := by
  have hd : distToCenterAt pipeC2 0 (-(1 / 20)) = 1 / 10 := by
    rw [distToCenterAt,
      if_pos (show pipeC2.orientation = PipeOrientation.parallel from rfl)]
    exact hypot_eval (by norm_num) (by norm_num [pipeC2])
  have hloop : pipeLoopResult 0 (-(1 / 20)) sceneC2.T_soil sceneC2.layers
      sceneC2.pipes = some 100 := by
    show pipeLoopResult 0 (-(1 / 20)) sceneC2.T_soil sceneC2.layers [pipeC2] = some 100
    rw [pipeLoopResult, hd,
      if_pos (by norm_num [pipeC2] : (1 / 10 : ℝ) ≤ pipeC2.r_bed),
      if_pos (by norm_num [pipeC2] : (1 / 10 : ℝ) ≤ pipeC2.r_pipe)]
    rfl
  rw [calculateTemperatureAtPoint, hloop]
  show (100 : ℝ) ≠ sceneC2.T_soil
  norm_num [sceneC2]

/-- A validly buried heat source for the witness scene. -/
noncomputable def pipeC2W : ScenePipe :=
  { id := 1, x := 0, y := 0, z := 2, orientation := PipeOrientation.parallel,
    r_pipe := 1 / 2, r_ins := 1 / 2, r_bed := 1, temp := 90,
    isSource := true, Q := some 10 }

/-- The witness scene: one validly buried source over a single soil layer. -/
noncomputable def sceneC2W : SceneData :=
  { T_soil := 15, pipes := [pipeC2W],
    layers := [{ k := 3 / 2, thickness := 3, depth_top := 0, depth_bottom := 3 }] }

/-- C2 witness: the amended statement at the concrete above-ground point. -/
theorem c2_witness : calculateTemperatureAtPoint 0 (-1) sceneC2W = sceneC2W.T_soil :=
  c2_above_ground_ambient sceneC2W 0 (-1) (by norm_num) (by
    intro p hp
    rw [show sceneC2W.pipes = [pipeC2W] from rfl, List.mem_singleton] at hp
    subst hp
    constructor <;> norm_num [pipeC2W])

/-! ## C10 -/

/-- A pipe triggers the early loop of the point evaluator at a query point
when the point is within its bedding radius and either within its bare radius
or the pipe is a source with a present, non-zero Q. -/
def triggersAt (p : ScenePipe) (x z : ℝ) : Prop :=
  distToCenterAt p x z ≤ p.r_bed ∧
    (distToCenterAt p x z ≤ p.r_pipe ∨
      (p.isSource = true ∧ ∃ q, p.Q = some q ∧ q ≠ 0))

/-- C10 (amended): a query point within the bare radius of a pipe receives
that pipe's stored temperature provided no pipe earlier in the list triggers
the early loop first (an earlier triggering pipe's stored or surface
temperature wins instead). -/
theorem c10_first_triggering_pipe (scene : SceneData) (x z : ℝ)
    (pre post : List ScenePipe) (p : ScenePipe)
    (hsplit : scene.pipes = pre ++ p :: post)
    (hpre : ∀ q ∈ pre, ¬ triggersAt q x z)
    (hbare : distToCenterAt p x z ≤ p.r_pipe)
    (hgeom : p.r_pipe ≤ p.r_bed) :
    calculateTemperatureAtPoint x z scene = p.temp := by
  have hloop : ∀ pre2 : List ScenePipe, (∀ q ∈ pre2, ¬ triggersAt q x z) →
      pipeLoopResult x z scene.T_soil scene.layers (pre2 ++ p :: post) = some p.temp := by
    intro pre2
    induction pre2 with
    | nil =>
      intro _
      rw [List.nil_append, pipeLoopResult, if_pos (le_trans hbare hgeom),
        if_pos hbare]
    | cons q rest ih =>
      intro hpre2
      have hq := hpre2 q (List.mem_cons_self q rest)
      rw [triggersAt] at hq
      have htail := ih fun r hr => hpre2 r (List.mem_cons_of_mem q hr)
      rw [List.cons_append, pipeLoopResult]
      by_cases hqb : distToCenterAt q x z ≤ q.r_bed
      · have hnb : ¬ (distToCenterAt q x z ≤ q.r_pipe ∨
            (q.isSource = true ∧ ∃ qq, q.Q = some qq ∧ qq ≠ 0)) :=
          fun h => hq ⟨hqb, h⟩
        have hq1 : ¬ distToCenterAt q x z ≤ q.r_pipe := fun h => hnb (Or.inl h)
        have hq2 : ¬ (q.isSource = true ∧ ∃ qq, q.Q = some qq ∧ qq ≠ 0) :=
          fun h => hnb (Or.inr h)
        rw [if_pos hqb, if_neg hq1]
        cases hQ : q.Q with
        | none => exact htail
        | some qq =>
          show (if q.isSource = true ∧ qq ≠ 0 then
              some (surfaceTempAt q qq scene.T_soil scene.layers)
            else pipeLoopResult x z scene.T_soil scene.layers (rest ++ p :: post)) =
            some p.temp
          rw [if_neg fun hc => hq2 ⟨hc.1, qq, hQ, hc.2⟩]
          exact htail
      · rw [if_neg hqb]
        exact htail
  rw [calculateTemperatureAtPoint, hsplit, hloop pre hpre]

/-- The earlier pipe of the counterexample scene: a heat source at depth 2
with bare radius 1/10 and bedding radius 1, Q = 10. -/
noncomputable def pipeC10A : ScenePipe :=
  { id := 1, x := 0, y := 0, z := 2, orientation := PipeOrientation.parallel,
    r_pipe := 1 / 10, r_ins := 1 / 10, r_bed := 1, temp := 90,
    isSource := true, Q := some 10 }

/-- The later pipe of the counterexample scene: an affected pipe at depth 5/2
whose bare radius 3/10 contains the query point, stored temperature 50. -/
noncomputable def pipeC10B : ScenePipe :=
  { id := 2, x := 0, y := 0, z := 5 / 2, orientation := PipeOrientation.parallel,
    r_pipe := 3 / 10, r_ins := 3 / 10, r_bed := 3 / 10, temp := 50,
    isSource := false, Q := none }

/-- One uniform soil layer of conductivity 2 for the C10 scenes. -/
noncomputable def layersC10 : List CalculationSoilLayer :=
  [{ k := 2, thickness := 10, depth_top := 0, depth_bottom := 10 }]

/-- The counterexample scene: source A first, then pipe B, soil at 15. -/
noncomputable def sceneC10 : SceneData :=
  { T_soil := 15, pipes := [pipeC10A, pipeC10B], layers := layersC10 }

/-- C10 counterexample: the query point (0, 5/2) lies at pipe B's centerline,
inside its bare radius, yet the evaluator does not return B's stored
temperature 50 — it returns the surface temperature of the earlier source A,
in whose bedding annulus the point also lies. -/
theorem c10_counterexample :
    distToCenterAt pipeC10B 0 (5 / 2) ≤ pipeC10B.r_pipe ∧
    calculateTemperatureAtPoint 0 (5 / 2) sceneC10 ≠ 50 := by
  have hdB : distToCenterAt pipeC10B 0 (5 / 2) = 0 := by
    rw [distToCenterAt,
      if_pos (show pipeC10B.orientation = PipeOrientation.parallel from rfl)]
    exact hypot_eval le_rfl (by norm_num [pipeC10B])
  have hdA : distToCenterAt pipeC10A 0 (5 / 2) = 1 / 2 := by
    rw [distToCenterAt,
      if_pos (show pipeC10A.orientation = PipeOrientation.parallel from rfl)]
    exact hypot_eval (by norm_num) (by norm_num [pipeC10A])
  have hk : getEffectiveSoilKForPipe (pipeC10A.r_bed * 2) 0 0 pipeC10A.z layersC10 = 2 := by
    rw [getEffectiveSoilKForPipe, layersC10,
      List.filter_cons_of_pos (by norm_num [pipeC10A]), List.filter_nil]
    norm_num
  have hsurf : surfaceTempAt pipeC10A 10 15 layersC10 =
      15 + 10 / (2 * Real.pi * 2) * Real.log 4 := by
    rw [surfaceTempAt, hk, if_neg (by norm_num : ¬ (2:ℝ) ≤ 0)]
    norm_num [pipeC10A]
  have hloop : pipeLoopResult 0 (5 / 2) sceneC10.T_soil sceneC10.layers
      sceneC10.pipes = some (surfaceTempAt pipeC10A 10 15 layersC10) := by
    show pipeLoopResult 0 (5 / 2) sceneC10.T_soil sceneC10.layers
      (pipeC10A :: [pipeC10B]) = _
    rw [pipeLoopResult, hdA,
      if_pos (by norm_num [pipeC10A] : (1 / 2 : ℝ) ≤ pipeC10A.r_bed),
      if_neg (by norm_num [pipeC10A] : ¬ (1 / 2 : ℝ) ≤ pipeC10A.r_pipe)]
    show (if pipeC10A.isSource = true ∧ (10:ℝ) ≠ 0 then
        some (surfaceTempAt pipeC10A 10 sceneC10.T_soil sceneC10.layers)
      else pipeLoopResult 0 (5 / 2) sceneC10.T_soil sceneC10.layers [pipeC10B]) = _
    rw [if_pos ⟨rfl, by norm_num⟩]
    rfl
  constructor
  · rw [hdB]; norm_num [pipeC10B]
  · rw [calculateTemperatureAtPoint, hloop]
    show surfaceTempAt pipeC10A 10 15 layersC10 ≠ 50
    rw [hsurf]
    have hlog_pos : 0 < Real.log 4 := Real.log_pos (by norm_num)
    have hlog_le : Real.log 4 ≤ 3 := by
      have h := Real.log_le_sub_one_of_pos (by norm_num : (0:ℝ) < 4)
      linarith
    have hpi := Real.pi_gt_three
    have hfrac : 10 / (2 * Real.pi * 2) < 1 := by
      rw [div_lt_one (by linarith)]
      linarith
    have hb : 10 / (2 * Real.pi * 2) * Real.log 4 ≤ 1 * 3 :=
      mul_le_mul hfrac.le hlog_le hlog_pos.le (by norm_num)
    intro heq
    linarith

/-- The witness scene: pipe B alone. -/
noncomputable def sceneC10W : SceneData :=
  { T_soil := 15, pipes := [pipeC10B], layers := layersC10 }

/-- C10 witness: with no earlier triggering pipe, the point at B's centerline
does get B's stored temperature. -/
theorem c10_witness : calculateTemperatureAtPoint 0 (5 / 2) sceneC10W = pipeC10B.temp :=
  c10_first_triggering_pipe sceneC10W 0 (5 / 2) [] [] pipeC10B rfl
    (by intro q hq; cases hq)
    (by
      rw [distToCenterAt,
        if_pos (show pipeC10B.orientation = PipeOrientation.parallel from rfl),
        hypot_eval le_rfl (by norm_num [pipeC10B])]
      norm_num [pipeC10B])
    (by norm_num [pipeC10B])

end SteamCrossings
